import Mathlib

/-!
Verification of the go-netdicom DICOM upper-layer protocol engine.

This file shallowly embeds the association state machine, the outbound
fragmenter and the inbound command assembler of the repository
(statemachine.go and dimse/command_assembler.go together with the dimse
message decoders), and proves or refutes the specified properties about
them.  Machine integers are modelled as Nat or Int, byte strings as
List Nat, fallible paths as Except, and Go panics as explicit failure
constructors.
-/

deriving instance DecidableEq for Except

namespace NetDicom

/-! States of the DICOM upper-layer state machine (statemachine.go, stateType).
In Go these are an integer type with the thirteen named constants sta01..sta13. -/

inductive State where
  | sta01
  | sta02
  | sta03
  | sta04
  | sta05
  | sta06
  | sta07
  | sta08
  | sta09
  | sta10
  | sta11
  | sta12
  | sta13
deriving DecidableEq, Repr

/-! Events of the state machine (statemachine.go, eventType, evt01..evt19). -/

inductive Event where
  | evt01
  | evt02
  | evt03
  | evt04
  | evt05
  | evt06
  | evt07
  | evt08
  | evt09
  | evt10
  | evt11
  | evt12
  | evt13
  | evt14
  | evt15
  | evt16
  | evt17
  | evt18
  | evt19
deriving DecidableEq, Repr

/-- The named actions of the state machine (statemachine.go actionAe1 .. actionAa8).
Each Go action is a callback returning the next state; here an action is a name,
and its next-state behaviour is the function actionNextState below. -/
inductive StateAction where
  | ae1
  | ae2
  | ae3
  | ae4
  | ae5
  | ae6
  | ae7
  | ae8
  | dt1
  | dt2
  | ar1
  | ar2
  | ar3
  | ar4
  | ar5
  | ar6
  | ar7
  | ar8
  | ar9
  | ar10
  | aa1
  | aa2
  | aa3
  | aa4
  | aa5
  | aa6
  | aa7
  | aa8
deriving DecidableEq, Repr

/-- Branch conditions consulted by the data-dependent action callbacks:
isUser (AR-8 collision side), ae3Ok (AE-3: contextManager.onAssociateResponse
succeeded), ae6VersionOk (AE-6: ProtocolVersion equals 0x0001), dt2Ok (DT-2:
commandAssembler.AddDataPDU returned no error).  All the other actions return
a fixed next state. -/
structure ActionEnv where
  isUser : Bool
  ae3Ok : Bool
  ae6VersionOk : Bool
  dt2Ok : Bool
deriving DecidableEq, Repr

/-- Next state returned by each action callback (statemachine.go).
AE-3 falls through to the AA-8 callback on a bad A-ASSOCIATE-AC (sta13);
AE-6 answers sta13 on a wrong protocol version and sta03 otherwise;
DT-2 falls through to the AA-8 callback on an assembly error;
AR-8 picks sta09 for the association requestor and sta10 otherwise. -/
def actionNextState (a : StateAction) (env : ActionEnv) : State :=
  match a with
  | .ae1 => .sta04
  | .ae2 => .sta05
  | .ae3 => if env.ae3Ok then .sta06 else .sta13
  | .ae4 => .sta01
  | .ae5 => .sta02
  | .ae6 => if env.ae6VersionOk then .sta03 else .sta13
  | .ae7 => .sta06
  | .ae8 => .sta13
  | .dt1 => .sta06
  | .dt2 => if env.dt2Ok then .sta06 else .sta13
  | .ar1 => .sta07
  | .ar2 => .sta08
  | .ar3 => .sta01
  | .ar4 => .sta13
  | .ar5 => .sta01
  | .ar6 => .sta07
  | .ar7 => .sta08
  | .ar8 => if env.isUser then .sta09 else .sta10
  | .ar9 => .sta11
  | .ar10 => .sta12
  | .aa1 => .sta13
  | .aa2 => .sta01
  | .aa3 => .sta01
  | .aa4 => .sta01
  | .aa5 => .sta01
  | .aa6 => .sta13
  | .aa7 => .sta13
  | .aa8 => .sta13

/-- The transition table (statemachine.go, stateTransitions), transcribed
entry for entry from the Go map literal, grouped by current state. -/

def transitionsSta01 : List ((State × Event) × StateAction) :=
  [
    ((.sta01, .evt01), .ae1),
    ((.sta01, .evt05), .ae5) ]

def transitionsSta02 : List ((State × Event) × StateAction) :=
  [
    ((.sta02, .evt03), .aa1),
    ((.sta02, .evt04), .aa1),
    ((.sta02, .evt06), .ae6),
    ((.sta02, .evt10), .aa1),
    ((.sta02, .evt12), .aa1),
    ((.sta02, .evt13), .aa1),
    ((.sta02, .evt16), .aa2),
    ((.sta02, .evt17), .aa5),
    ((.sta02, .evt18), .aa2),
    ((.sta02, .evt19), .aa1) ]

def transitionsSta03 : List ((State × Event) × StateAction) :=
  [
    ((.sta03, .evt03), .aa8),
    ((.sta03, .evt04), .aa8),
    ((.sta03, .evt06), .aa8),
    ((.sta03, .evt07), .ae7),
    ((.sta03, .evt08), .ae8),
    ((.sta03, .evt10), .aa8),
    ((.sta03, .evt12), .aa8),
    ((.sta03, .evt13), .aa8),
    ((.sta03, .evt15), .aa1),
    ((.sta03, .evt16), .aa3),
    ((.sta03, .evt17), .aa4),
    ((.sta03, .evt19), .aa8) ]

def transitionsSta04 : List ((State × Event) × StateAction) :=
  [
    ((.sta04, .evt02), .ae2),
    ((.sta04, .evt15), .aa2),
    ((.sta04, .evt17), .aa4) ]

def transitionsSta05 : List ((State × Event) × StateAction) :=
  [
    ((.sta05, .evt03), .ae3),
    ((.sta05, .evt04), .ae4),
    ((.sta05, .evt06), .aa8),
    ((.sta05, .evt10), .aa8),
    ((.sta05, .evt12), .aa8),
    ((.sta05, .evt13), .aa8),
    ((.sta05, .evt15), .aa1),
    ((.sta05, .evt16), .aa3),
    ((.sta05, .evt17), .aa4),
    ((.sta05, .evt18), .aa8),
    ((.sta05, .evt19), .aa8) ]

def transitionsSta06 : List ((State × Event) × StateAction) :=
  [
    ((.sta06, .evt03), .aa8),
    ((.sta06, .evt04), .aa8),
    ((.sta06, .evt06), .aa8),
    ((.sta06, .evt09), .dt1),
    ((.sta06, .evt10), .dt2),
    ((.sta06, .evt11), .ar1),
    ((.sta06, .evt12), .ar2),
    ((.sta06, .evt13), .aa8),
    ((.sta06, .evt15), .aa1),
    ((.sta06, .evt16), .aa3),
    ((.sta06, .evt17), .aa4),
    ((.sta06, .evt19), .aa8) ]

def transitionsSta07 : List ((State × Event) × StateAction) :=
  [
    ((.sta07, .evt03), .aa8),
    ((.sta07, .evt04), .aa8),
    ((.sta07, .evt06), .aa8),
    ((.sta07, .evt10), .ar6),
    ((.sta07, .evt12), .ar8),
    ((.sta07, .evt13), .ar3),
    ((.sta07, .evt15), .aa1),
    ((.sta07, .evt16), .aa3),
    ((.sta07, .evt17), .aa4),
    ((.sta07, .evt19), .aa8) ]

def transitionsSta08 : List ((State × Event) × StateAction) :=
  [
    ((.sta08, .evt03), .aa8),
    ((.sta08, .evt04), .aa8),
    ((.sta08, .evt06), .aa8),
    ((.sta08, .evt09), .ar7),
    ((.sta08, .evt10), .aa8),
    ((.sta08, .evt12), .aa8),
    ((.sta08, .evt13), .aa8),
    ((.sta08, .evt14), .ar4),
    ((.sta08, .evt15), .aa1),
    ((.sta08, .evt16), .aa3),
    ((.sta08, .evt17), .aa4),
    ((.sta08, .evt19), .aa8) ]

def transitionsSta09 : List ((State × Event) × StateAction) :=
  [
    ((.sta09, .evt03), .aa8),
    ((.sta09, .evt04), .aa8),
    ((.sta09, .evt06), .aa8),
    ((.sta09, .evt10), .aa8),
    ((.sta09, .evt12), .aa8),
    ((.sta09, .evt13), .aa8),
    ((.sta09, .evt14), .ar9),
    ((.sta09, .evt15), .aa1),
    ((.sta09, .evt16), .aa3),
    ((.sta09, .evt17), .aa4),
    ((.sta09, .evt19), .aa8) ]

def transitionsSta10 : List ((State × Event) × StateAction) :=
  [
    ((.sta10, .evt03), .aa8),
    ((.sta10, .evt04), .aa8),
    ((.sta10, .evt06), .aa8),
    ((.sta10, .evt10), .aa8),
    ((.sta10, .evt12), .aa8),
    ((.sta10, .evt13), .ar10),
    ((.sta10, .evt15), .aa1),
    ((.sta10, .evt16), .aa3),
    ((.sta10, .evt17), .aa4),
    ((.sta10, .evt19), .aa8) ]

def transitionsSta11 : List ((State × Event) × StateAction) :=
  [
    ((.sta11, .evt03), .aa8),
    ((.sta11, .evt04), .aa8),
    ((.sta11, .evt06), .aa8),
    ((.sta11, .evt10), .aa8),
    ((.sta11, .evt12), .aa8),
    ((.sta11, .evt13), .ar3),
    ((.sta11, .evt15), .aa1),
    ((.sta11, .evt16), .aa3),
    ((.sta11, .evt17), .aa4),
    ((.sta11, .evt19), .aa8) ]

def transitionsSta12 : List ((State × Event) × StateAction) :=
  [
    ((.sta12, .evt03), .aa8),
    ((.sta12, .evt04), .aa8),
    ((.sta12, .evt06), .aa8),
    ((.sta12, .evt10), .aa8),
    ((.sta12, .evt12), .aa8),
    ((.sta12, .evt13), .aa8),
    ((.sta12, .evt14), .ar4),
    ((.sta12, .evt15), .aa1),
    ((.sta12, .evt16), .aa3),
    ((.sta12, .evt17), .aa4),
    ((.sta12, .evt19), .aa8) ]

def transitionsSta13 : List ((State × Event) × StateAction) :=
  [
    ((.sta13, .evt03), .aa6),
    ((.sta13, .evt04), .aa6),
    ((.sta13, .evt06), .aa7),
    ((.sta13, .evt07), .aa7),
    ((.sta13, .evt08), .aa7),
    ((.sta13, .evt09), .aa7),
    ((.sta13, .evt10), .aa6),
    ((.sta13, .evt11), .aa6),
    ((.sta13, .evt12), .aa6),
    ((.sta13, .evt13), .aa6),
    ((.sta13, .evt14), .aa6),
    ((.sta13, .evt15), .aa2),
    ((.sta13, .evt16), .aa2),
    ((.sta13, .evt17), .ar5),
    ((.sta13, .evt18), .aa2),
    ((.sta13, .evt19), .aa7) ]

/-- The full table is the concatenation of the thirteen per-state blocks. -/

def stateTransitions : List ((State × Event) × StateAction) :=
  transitionsSta01 ++ transitionsSta02 ++ transitionsSta03 ++ transitionsSta04 ++ transitionsSta05 ++ transitionsSta06 ++ transitionsSta07 ++ transitionsSta08 ++ transitionsSta09 ++ transitionsSta10 ++ transitionsSta11 ++ transitionsSta12 ++ transitionsSta13

/-- Table lookup (statemachine.go, findAction): nil when the pair is absent. -/
def findAction (s : State) (e : Event) : Option StateAction :=
  (stateTransitions.find? (fun p => p.1 = (s, e))).map (fun p => p.2)

/-- One step of the engine (statemachine.go, runOneStep): look the action up
in the table, and when none is found fall back to actionAa2 (stop the ARTIM
timer, close the transport), which answers sta01. -/
def runOneStepNext (s : State) (e : Event) (env : ActionEnv) : State :=
  match findAction s e with
  | some a => actionNextState a env
  | none => actionNextState .aa2 env

/-- The thirteen machine states. -/
def allStates : List State :=
  [.sta01, .sta02, .sta03, .sta04, .sta05, .sta06, .sta07, .sta08, .sta09,
   .sta10, .sta11, .sta12, .sta13]

/-- Iterated steps of the engine under a fixed branch environment. -/
def runEvents (env : ActionEnv) (s : State) (evs : List Event) : State :=
  evs.foldl (fun st e => runOneStepNext st e env) s

/-! Action AE-6 (statemachine.go, actionAe6): the acceptor processes an
inbound A-ASSOCIATE-RQ.  Its observable effects are modelled as a record of
the timer operations, the rejection PDU written to the transport, the event
posted on the downcall channel, and the next state. -/

/-- Body of an A-ASSOCIATE-RJ PDU (result, source, reason), each a byte. -/
structure AAssociateRjPDU where
  result : Nat
  source : Nat
  reason : Nat
deriving DecidableEq, Repr

/-- Modelled from the spec: the constants pdu.ResultRejectedPermanent and
pdu.SourceULServiceProviderACSE live in the pdu package, which is not under
src/; the spec fixes the negotiation-failure rejection to
result=rejected-permanent, source=UL-service-provider-ACSE, which DICOM
Part 8 Table 9-21 numbers 1 and 2. -/
def resultRejectedPermanent : Nat := 1

/-- Modelled from the spec: see resultRejectedPermanent. -/
def sourceULServiceProviderACSE : Nat := 2

/-- Event posted by AE-6 on the downcall channel: evt07 carrying the
A-ASSOCIATE-AC response, or evt08 carrying an A-ASSOCIATE-RJ. -/
inductive Ae6Downcall where
  | acceptEvt07
  | rejectEvt08 (rj : AAssociateRjPDU)
deriving DecidableEq, Repr

/-- Observable effects of one run of action AE-6. -/
structure Ae6Output where
  timerStopped : Bool
  sentRj : Option AAssociateRjPDU
  timerStarted : Bool
  downcall : Option Ae6Downcall
  next : State
deriving DecidableEq, Repr

/-- Action AE-6 (statemachine.go, actionAe6).  The ARTIM timer is stopped
first; a ProtocolVersion other than 0x0001 sends A-ASSOCIATE-RJ with
result 1, source 2, reason 2, restarts the timer and moves to sta13;
otherwise the outcome of contextManager.onAssociateRequest (abstracted by
negotiationOk, that code being outside src/) is posted on the downcall
channel and the machine moves to sta03. -/
def actionAe6Run (protocolVersion : Nat) (negotiationOk : Bool) : Ae6Output :=
  if protocolVersion ≠ 1 then
    { timerStopped := true
      sentRj := some { result := 1, source := 2, reason := 2 }
      timerStarted := true
      downcall := none
      next := .sta13 }
  else if negotiationOk then
    { timerStopped := true
      sentRj := none
      timerStarted := false
      downcall := some .acceptEvt07
      next := .sta03 }
  else
    { timerStopped := true
      sentRj := none
      timerStarted := false
      downcall := some (.rejectEvt08
        { result := resultRejectedPermanent
          source := sourceULServiceProviderACSE
          reason := 1 })
      next := .sta03 }

/-! Outbound fragmentation (statemachine.go, splitDataIntoPDUs). -/

/-- A presentation-data-value item of a P-DATA-TF PDU
(pdu.PresentationDataValueItem); the payload is a byte string. -/
structure PresentationDataValueItem where
  contextID : Nat
  command : Bool
  last : Bool
  value : List Nat
deriving DecidableEq, Repr

/-- A P-DATA-TF PDU (pdu.PDataTf). -/
structure PDataTf where
  items : List PresentationDataValueItem
deriving DecidableEq, Repr

/-- The chunking loop of splitDataIntoPDUs: while data remains, take
min(len(data), maxChunkSize) bytes into a fresh P-DATA-TF holding a single
PDV with Last initially false.  The Go loop runs only after the guard
maxChunkSize > 0, carried here as the hypothesis hpos. -/
def splitLoop (contextID : Nat) (command : Bool) (maxChunkSize : Nat)
    (hpos : 0 < maxChunkSize) (data : List Nat) : List PDataTf :=
  if h : data = [] then []
  else
    let chunkSize := min data.length maxChunkSize
    { items := [{ contextID := contextID, command := command, last := false,
                  value := data.take chunkSize }] } ::
      splitLoop contextID command maxChunkSize hpos (data.drop chunkSize)
termination_by data.length
decreasing_by
  have hd : 0 < data.length := List.length_pos.mpr h
  simp only [List.length_drop]
  omega

/-- Final fix-up of splitDataIntoPDUs: set Last on the first item of the
final PDU (the Go code writes pdus[len(pdus)-1].Items[0].Last = true). -/
def setLastFlag : List PDataTf → List PDataTf
  | [] => []
  | [p] => [{ items := match p.items with
              | [] => []
              | it :: rest => { it with last := true } :: rest }]
  | p :: q :: rest => p :: setLastFlag (q :: rest)

/-- Result of splitDataIntoPDUs: either the produced PDU list, or a Go
panic (the function panics when the doassert on nonempty data fails and
when the computed max chunk size is not positive). -/
inductive SplitResult where
  | pdus (l : List PDataTf)
  | panicked
deriving DecidableEq, Repr

/-- Fragmenter (statemachine.go, splitDataIntoPDUs).  The context-manager
lookup by abstract syntax is abstracted into the contextID argument: the
properties considered all assume a known abstract syntax, for which the
lookup yields context.contextID (an unknown syntax is another panic
upstream of the behaviour studied here).  peerMaxPDUSize is the Go int
field of the context manager. -/
def splitDataIntoPDUs (peerMaxPDUSize : Int) (contextID : Nat) (command : Bool)
    (data : List Nat) : SplitResult :=
  if hdata : data.length = 0 then .panicked
  else
    if hmax : peerMaxPDUSize - 8 ≤ 0 then .panicked
    else
      .pdus (setLastFlag (splitLoop contextID command (peerMaxPDUSize - 8).toNat
        (by omega) data))

/-- The Last flag of a PDU as read by the fix-up: the flag of its first
item (false for an empty item list). -/
def pduLastFlag (p : PDataTf) : Bool :=
  match p.items with
  | [] => false
  | it :: _ => it.last

/-- Modelled from the spec: the P-DATA-TF wire encoding lives in the pdu
package, which is not under src/.  Spec section 4.A: every PDU is framed as
type(u8) reserved(u8) length(u32) payload, and each PDV inside a P-DATA-TF
carries a 4-byte length prefix followed by the context-ID byte, the
message-control-header byte and the payload. -/
def pdvWireSize (it : PresentationDataValueItem) : Nat :=
  4 + 1 + 1 + it.value.length

/-- Modelled from the spec: total serialized length of a P-DATA-TF,
6 header bytes plus the PDV items. -/
def pDataTfWireSize (p : PDataTf) : Nat :=
  6 + (p.items.map pdvWireSize).sum

/-- Outcome of the fragmentation step of action DT-1: the command PDUs are
written and the action answers sta06, or the goroutine panics, or (spec
behaviour only) the failure is rehandled as a local abort evt15. -/
inductive Dt1Outcome where
  | sent (commandPDUs : List PDataTf) (next : State)
  | panicked
  | localAbortEvt15
deriving DecidableEq, Repr

/-- Fragmentation step of action DT-1 (statemachine.go, actionDt1): the
encoded command bytes are split with splitDataIntoPDUs and sent; a
splitDataIntoPDUs panic propagates and crashes the state-machine goroutine
(no event is generated). -/
def actionDt1Fragment (peerMaxPDUSize : Int) (contextID : Nat)
    (commandBytes : List Nat) : Dt1Outcome :=
  match splitDataIntoPDUs peerMaxPDUSize contextID true commandBytes with
  | .pdus l => .sent l .sta06
  | .panicked => .panicked

/-- Follows the spec words, for comparison with actionDt1Fragment (spec
section 7, item 4): a peer max-PDU-size of 0 or at most 8 must be refused
and treated as a local abort, surfacing as evt15. -/
def actionDt1FragmentSpec (peerMaxPDUSize : Int) (contextID : Nat)
    (commandBytes : List Nat) : Dt1Outcome :=
  if peerMaxPDUSize ≤ 8 then .localAbortEvt15
  else
    match splitDataIntoPDUs peerMaxPDUSize contextID true commandBytes with
    | .pdus l => .sent l .sta06
    | .panicked => .panicked

/-! DICOM elements and the DIMSE message decoder (dimse package,
MessageDecoder in the message-decoder source file).  A dicom.Element is a
tag together with a value; elem.Value may be the Go nil pointer (modelled
by none), and an element value is a typed list.  The cases where the value
interface holds a nil raw value or a list of the wrong dynamic type are
collapsed into the otherValueType constructor: each of them makes every
getter fail, exactly as in the source. -/

/-- Value payload of a dicom.Element. -/
inductive DicomValue where
  | ints (xs : List Int)
  | strings (xs : List String)
  | otherValueType
deriving DecidableEq, Repr

/-- A dicom.Element: a (group, element) tag and an optional value
(none models a nil Value pointer). -/
structure DicomElement where
  tag : Nat × Nat
  value : Option DicomValue
deriving DecidableEq, Repr

/-! Modelled from the spec: the commandset package of tag constants is not
under src/.  The values are the standard DICOM command-set tags of group
0x0000, which the source also names in the comments and literal tags of
dimse/command_assembler.go. -/

/-- Modelled from the spec: command-set tag (0000,0100), CommandField. -/
def tagCommandField : Nat × Nat := (0x0000, 0x0100)

/-- Modelled from the spec: command-set tag (0000,0110), MessageID. -/
def tagMessageID : Nat × Nat := (0x0000, 0x0110)

/-- Modelled from the spec: command-set tag (0000,0120), MessageIDBeingRespondedTo. -/
def tagMessageIDBeingRespondedTo : Nat × Nat := (0x0000, 0x0120)

/-- Modelled from the spec: command-set tag (0000,0700), Priority. -/
def tagPriority : Nat × Nat := (0x0000, 0x0700)

/-- Modelled from the spec: command-set tag (0000,0800), CommandDataSetType. -/
def tagCommandDataSetType : Nat × Nat := (0x0000, 0x0800)

/-- Modelled from the spec: command-set tag (0000,0900), Status. -/
def tagStatus : Nat × Nat := (0x0000, 0x0900)

/-- Modelled from the spec: command-set tag (0000,0902), ErrorComment. -/
def tagErrorComment : Nat × Nat := (0x0000, 0x0902)

/-- Modelled from the spec: command-set tag (0000,0002), AffectedSOPClassUID. -/
def tagAffectedSOPClassUID : Nat × Nat := (0x0000, 0x0002)

/-- Modelled from the spec: command-set tag (0000,1000), AffectedSOPInstanceUID. -/
def tagAffectedSOPInstanceUID : Nat × Nat := (0x0000, 0x1000)

/-- Modelled from the spec: command-set tag (0000,0600), MoveDestination. -/
def tagMoveDestination : Nat × Nat := (0x0000, 0x0600)

/-- Modelled from the spec: command-set tag (0000,1030), MoveOriginatorApplicationEntityTitle. -/
def tagMoveOriginatorApplicationEntityTitle : Nat × Nat := (0x0000, 0x1030)

/-- Modelled from the spec: command-set tag (0000,1031), MoveOriginatorMessageID. -/
def tagMoveOriginatorMessageID : Nat × Nat := (0x0000, 0x1031)

/-- Modelled from the spec: command-set tag (0000,1020), NumberOfRemainingSuboperations. -/
def tagNumberOfRemainingSuboperations : Nat × Nat := (0x0000, 0x1020)

/-- Modelled from the spec: command-set tag (0000,1021), NumberOfCompletedSuboperations. -/
def tagNumberOfCompletedSuboperations : Nat × Nat := (0x0000, 0x1021)

/-- Modelled from the spec: command-set tag (0000,1022), NumberOfFailedSuboperations. -/
def tagNumberOfFailedSuboperations : Nat × Nat := (0x0000, 0x1022)

/-- Modelled from the spec: command-set tag (0000,1023), NumberOfWarningSuboperations. -/
def tagNumberOfWarningSuboperations : Nat × Nat := (0x0000, 0x1023)

/-- The optionality marker of a getter call (RequiredElement / OptionalElement). -/
inductive IsOptionalElement where
  | requiredElement
  | optionalElement
deriving DecidableEq, Repr

/-- The DIMSE Status payload (status code plus optional error comment). -/
structure Status where
  status : Nat
  errorComment : String
deriving DecidableEq, Repr

/-- The MessageDecoder: the Go version holds a map from tag to element; it is
modelled as a list of elements with distinct tags (ReadMessage builds it by
overwriting insertion, so later duplicates win). -/
structure MessageDecoder where
  elements : List DicomElement
deriving DecidableEq, Repr

/-- Map lookup on the element list. -/
def MessageDecoder.find (d : MessageDecoder) (tag : Nat × Nat) : Option DicomElement :=
  d.elements.find? (fun e => e.tag = tag)

/-- Map deletion on the element list (the Go code calls delete on the map). -/
def MessageDecoder.erase (d : MessageDecoder) (tag : Nat × Nat) : MessageDecoder :=
  { elements := d.elements.filter (fun e => ¬ e.tag = tag) }

/-- Overwriting map insertion, as performed by ReadMessage when it fills
the decoder from a dataset. -/
def MessageDecoder.insert (d : MessageDecoder) (e : DicomElement) : MessageDecoder :=
  { elements := (d.erase e.tag).elements ++ [e] }

/-- UnparsedElements: all the elements not yet consumed by a getter. -/
def MessageDecoder.UnparsedElements (d : MessageDecoder) : List DicomElement :=
  d.elements

/-- GetUInt16 (message-decoder source): a missing element is an error only
for RequiredElement (otherwise 0); a nil value, a non-int value type, or an
out-of-range first entry is an error; an empty int list yields 0 with no
error and without consuming the element; otherwise the first entry is
returned and the element is deleted.  The returned decoder is the state of
d after the call. -/
def MessageDecoder.GetUInt16 (d : MessageDecoder) (tag : Nat × Nat)
    (optional : IsOptionalElement) : Except String Nat × MessageDecoder :=
  match d.find tag with
  | none =>
    match optional with
    | .requiredElement => (.error "GetUInt16: tag not found", d)
    | .optionalElement => (.ok 0, d)
  | some elem =>
    match elem.value with
    | none => (.error "GetUInt16: tag has no value", d)
    | some (.ints xs) =>
      match xs with
      | [] => (.ok 0, d)
      | x :: _ =>
        if x < 0 ∨ x > 65535 then (.error "GetUInt16: value out of range for uint16", d)
        else (.ok x.toNat, d.erase tag)
    | some _ => (.error "GetUInt16: element is not an int", d)

/-- GetString (message-decoder source), same element-consumption discipline
as GetUInt16: an empty string list yields the empty string with no error and
without consuming the element. -/
def MessageDecoder.GetString (d : MessageDecoder) (tag : Nat × Nat)
    (optional : IsOptionalElement) : Except String String × MessageDecoder :=
  match d.find tag with
  | none =>
    match optional with
    | .requiredElement => (.error "GetString: tag not found", d)
    | .optionalElement => (.ok "", d)
  | some elem =>
    match elem.value with
    | none => (.error "GetString: tag has no value", d)
    | some (.strings xs) =>
      match xs with
      | [] => (.ok "", d)
      | x :: _ => (.ok x, d.erase tag)
    | some _ => (.error "GetString: failed to convert to string list", d)

/-- GetCommandDataSetType: GetUInt16 on tag (0000,0800), RequiredElement. -/
def MessageDecoder.GetCommandDataSetType (d : MessageDecoder) :
    Except String Nat × MessageDecoder :=
  match d.GetUInt16 tagCommandDataSetType .requiredElement with
  | (.error e, d1) =>
    (.error ("GetCommandDataSetType: failed to get command data set type: " ++ e), d1)
  | (.ok v, d1) => (.ok v, d1)

/-- GetStatus: required status code, optional error comment. -/
def MessageDecoder.GetStatus (d : MessageDecoder) : Except String Status × MessageDecoder :=
  match d.GetUInt16 tagStatus .requiredElement with
  | (.error e, d1) => (.error ("GetStatus: failed to get status code: " ++ e), d1)
  | (.ok code, d1) =>
    match d1.GetString tagErrorComment .optionalElement with
    | (.error e, d2) => (.error ("GetStatus: failed to get error comment: " ++ e), d2)
    | (.ok comment, d2) => (.ok { status := code, errorComment := comment }, d2)

/-- Chains one getter call, wrapping its error with the caller context, as
the repeated early-return blocks of the Go decode methods do. -/
def bindGet {α β : Type} (step : Except String α × MessageDecoder) (ctxMsg : String)
    (k : α → MessageDecoder → Except String β) : Except String β :=
  match step with
  | (.error e, _) => .error (ctxMsg ++ e)
  | (.ok v, d) => k v d

/-- CommandDataSetTypeNull (0x101): the DIMSE message carries no data payload. -/
def commandDataSetTypeNull : Nat := 0x101

/-! The ten DIMSE message types.  Field names follow the Go structs; Extra
holds the unparsed elements. -/

/-- The C-STORE request message (dimse CStoreRq). -/
structure CStoreRq where
  affectedSOPClassUID : String
  messageID : Nat
  priority : Nat
  commandDataSetType : Nat
  affectedSOPInstanceUID : String
  moveOriginatorApplicationEntityTitle : String
  moveOriginatorMessageID : Nat
  extra : List DicomElement
deriving DecidableEq, Repr

/-- The C-STORE response message (dimse CStoreRsp). -/
structure CStoreRsp where
  affectedSOPClassUID : String
  messageIDBeingRespondedTo : Nat
  commandDataSetType : Nat
  affectedSOPInstanceUID : String
  status : Status
  extra : List DicomElement
deriving DecidableEq, Repr

/-- The C-FIND request message (dimse CFindRq). -/
structure CFindRq where
  affectedSOPClassUID : String
  messageID : Nat
  priority : Nat
  commandDataSetType : Nat
  extra : List DicomElement
deriving DecidableEq, Repr

/-- Modelled from the spec: the CFindRsp source file is not under src/; the
spec treats each DIMSE message as a tagged payload of command field, message
id, has-data flag, optional status and unparsed extras, which for a response
gives the fields below (the shape of the sibling responses in src/). -/
structure CFindRsp where
  affectedSOPClassUID : String
  messageIDBeingRespondedTo : Nat
  commandDataSetType : Nat
  status : Status
  extra : List DicomElement
deriving DecidableEq, Repr

/-- Modelled from the spec: the CGetRq source file is not under src/; shape
as for the sibling requests in src/ (see CFindRsp). -/
structure CGetRq where
  affectedSOPClassUID : String
  messageID : Nat
  priority : Nat
  commandDataSetType : Nat
  extra : List DicomElement
deriving DecidableEq, Repr

/-- The C-GET response message (dimse CGetRsp). -/
structure CGetRsp where
  affectedSOPClassUID : String
  messageIDBeingRespondedTo : Nat
  commandDataSetType : Nat
  numberOfRemainingSuboperations : Nat
  numberOfCompletedSuboperations : Nat
  numberOfFailedSuboperations : Nat
  numberOfWarningSuboperations : Nat
  status : Status
  extra : List DicomElement
deriving DecidableEq, Repr

/-- The C-MOVE request message (dimse CMoveRq). -/
structure CMoveRq where
  affectedSOPClassUID : String
  messageID : Nat
  priority : Nat
  moveDestination : String
  commandDataSetType : Nat
  extra : List DicomElement
deriving DecidableEq, Repr

/-- The C-MOVE response message (dimse CMoveRsp). -/
structure CMoveRsp where
  affectedSOPClassUID : String
  messageIDBeingRespondedTo : Nat
  commandDataSetType : Nat
  numberOfRemainingSuboperations : Nat
  numberOfCompletedSuboperations : Nat
  numberOfFailedSuboperations : Nat
  numberOfWarningSuboperations : Nat
  status : Status
  extra : List DicomElement
deriving DecidableEq, Repr

/-- The C-ECHO request message (dimse CEchoRq). -/
structure CEchoRq where
  messageID : Nat
  commandDataSetType : Nat
  extra : List DicomElement
deriving DecidableEq, Repr

/-- The C-ECHO response message (dimse CEchoRsp). -/
structure CEchoRsp where
  messageIDBeingRespondedTo : Nat
  commandDataSetType : Nat
  status : Status
  extra : List DicomElement
deriving DecidableEq, Repr

/-- A typed DIMSE message (the dimse.Message interface). -/
inductive Message where
  | cStoreRq (m : CStoreRq)
  | cStoreRsp (m : CStoreRsp)
  | cFindRq (m : CFindRq)
  | cFindRsp (m : CFindRsp)
  | cGetRq (m : CGetRq)
  | cGetRsp (m : CGetRsp)
  | cMoveRq (m : CMoveRq)
  | cMoveRsp (m : CMoveRsp)
  | cEchoRq (m : CEchoRq)
  | cEchoRsp (m : CEchoRsp)
deriving DecidableEq, Repr

/-- HasData of every message type: true exactly when CommandDataSetType is
not CommandDataSetTypeNull (each Go message type implements it this way). -/
def Message.HasData : Message → Bool
  | .cStoreRq m => decide ¬ m.commandDataSetType = commandDataSetTypeNull
  | .cStoreRsp m => decide ¬ m.commandDataSetType = commandDataSetTypeNull
  | .cFindRq m => decide ¬ m.commandDataSetType = commandDataSetTypeNull
  | .cFindRsp m => decide ¬ m.commandDataSetType = commandDataSetTypeNull
  | .cGetRq m => decide ¬ m.commandDataSetType = commandDataSetTypeNull
  | .cGetRsp m => decide ¬ m.commandDataSetType = commandDataSetTypeNull
  | .cMoveRq m => decide ¬ m.commandDataSetType = commandDataSetTypeNull
  | .cMoveRsp m => decide ¬ m.commandDataSetType = commandDataSetTypeNull
  | .cEchoRq m => decide ¬ m.commandDataSetType = commandDataSetTypeNull
  | .cEchoRsp m => decide ¬ m.commandDataSetType = commandDataSetTypeNull

/-- CStoreRq.decode (dimse cstorerq source). -/
def CStoreRq.decode (d : MessageDecoder) : Except String CStoreRq :=
  bindGet (d.GetString tagAffectedSOPClassUID .requiredElement)
    "cStoreRq.decode: failed to decode AffectedSOPClassUID: " fun sopClass d =>
  bindGet (d.GetUInt16 tagMessageID .requiredElement)
    "cStoreRq.decode: failed to decode MessageID: " fun messageID d =>
  bindGet (d.GetUInt16 tagPriority .requiredElement)
    "cStoreRq.decode: failed to decode Priority: " fun priority d =>
  bindGet d.GetCommandDataSetType
    "cStoreRq.decode: failed to decode CommandDataSetType: " fun cdst d =>
  bindGet (d.GetString tagAffectedSOPInstanceUID .requiredElement)
    "cStoreRq.decode: failed to decode AffectedSOPInstanceUID: " fun sopInstance d =>
  bindGet (d.GetString tagMoveOriginatorApplicationEntityTitle .optionalElement)
    "cStoreRq.decode: failed to decode MoveOriginatorApplicationEntityTitle: " fun aet d =>
  bindGet (d.GetUInt16 tagMoveOriginatorMessageID .optionalElement)
    "cStoreRq.decode: failed to decode MoveOriginatorMessageID: " fun moveMsgID d =>
  .ok { affectedSOPClassUID := sopClass, messageID := messageID, priority := priority,
        commandDataSetType := cdst, affectedSOPInstanceUID := sopInstance,
        moveOriginatorApplicationEntityTitle := aet, moveOriginatorMessageID := moveMsgID,
        extra := d.UnparsedElements }

/-- CStoreRsp.decode (dimse cstorersp source). -/
def CStoreRsp.decode (d : MessageDecoder) : Except String CStoreRsp :=
  bindGet (d.GetString tagAffectedSOPClassUID .requiredElement)
    "cStoreRsp.decode: failed to decode AffectedSOPClassUID: " fun sopClass d =>
  bindGet (d.GetUInt16 tagMessageIDBeingRespondedTo .requiredElement)
    "cStoreRsp.decode: failed to decode MessageIDBeingRespondedTo: " fun msgID d =>
  bindGet d.GetCommandDataSetType
    "cStoreRsp.decode: failed to decode CommandDataSetType: " fun cdst d =>
  bindGet (d.GetString tagAffectedSOPInstanceUID .requiredElement)
    "cStoreRsp.decode: failed to decode AffectedSOPInstanceUID: " fun sopInstance d =>
  bindGet d.GetStatus
    "cStoreRsp.decode: failed to decode Status: " fun st d =>
  .ok { affectedSOPClassUID := sopClass, messageIDBeingRespondedTo := msgID,
        commandDataSetType := cdst, affectedSOPInstanceUID := sopInstance,
        status := st, extra := d.UnparsedElements }

/-- CFindRq.decode (dimse cfindrq source). -/
def CFindRq.decode (d : MessageDecoder) : Except String CFindRq :=
  bindGet (d.GetString tagAffectedSOPClassUID .requiredElement)
    "cFindRq.decode: failed to decode AffectedSOPClassUID: " fun sopClass d =>
  bindGet (d.GetUInt16 tagMessageID .requiredElement)
    "cFindRq.decode: failed to decode MessageID: " fun messageID d =>
  bindGet (d.GetUInt16 tagPriority .requiredElement)
    "cFindRq.decode: failed to decode Priority: " fun priority d =>
  bindGet d.GetCommandDataSetType
    "cFindRq.decode: failed to decode CommandDataSetType: " fun cdst d =>
  .ok { affectedSOPClassUID := sopClass, messageID := messageID, priority := priority,
        commandDataSetType := cdst, extra := d.UnparsedElements }

/-- Modelled from the spec: CFindRsp.decode, by the shape of the sibling
response decoders under src/ (see CFindRsp). -/
def CFindRsp.decode (d : MessageDecoder) : Except String CFindRsp :=
  bindGet (d.GetString tagAffectedSOPClassUID .requiredElement)
    "cFindRsp.decode: failed to decode AffectedSOPClassUID: " fun sopClass d =>
  bindGet (d.GetUInt16 tagMessageIDBeingRespondedTo .requiredElement)
    "cFindRsp.decode: failed to decode MessageIDBeingRespondedTo: " fun msgID d =>
  bindGet d.GetCommandDataSetType
    "cFindRsp.decode: failed to decode CommandDataSetType: " fun cdst d =>
  bindGet d.GetStatus
    "cFindRsp.decode: failed to decode Status: " fun st d =>
  .ok { affectedSOPClassUID := sopClass, messageIDBeingRespondedTo := msgID,
        commandDataSetType := cdst, status := st, extra := d.UnparsedElements }

/-- Modelled from the spec: CGetRq.decode, by the shape of the sibling
request decoders under src/ (see CGetRq). -/
def CGetRq.decode (d : MessageDecoder) : Except String CGetRq :=
  bindGet (d.GetString tagAffectedSOPClassUID .requiredElement)
    "cGetRq.decode: failed to decode AffectedSOPClassUID: " fun sopClass d =>
  bindGet (d.GetUInt16 tagMessageID .requiredElement)
    "cGetRq.decode: failed to decode MessageID: " fun messageID d =>
  bindGet (d.GetUInt16 tagPriority .requiredElement)
    "cGetRq.decode: failed to decode Priority: " fun priority d =>
  bindGet d.GetCommandDataSetType
    "cGetRq.decode: failed to decode CommandDataSetType: " fun cdst d =>
  .ok { affectedSOPClassUID := sopClass, messageID := messageID, priority := priority,
        commandDataSetType := cdst, extra := d.UnparsedElements }

/-- CGetRsp.decode (dimse cgetrsp source). -/
def CGetRsp.decode (d : MessageDecoder) : Except String CGetRsp :=
  bindGet (d.GetString tagAffectedSOPClassUID .requiredElement)
    "CGetRsp.decode: failed to decode AffectedSOPClassUID: " fun sopClass d =>
  bindGet (d.GetUInt16 tagMessageIDBeingRespondedTo .requiredElement)
    "CGetRsp.decode: failed to decode MessageIDBeingRespondedTo: " fun msgID d =>
  bindGet d.GetCommandDataSetType
    "CGetRsp.decode: failed to decode CommandDataSetType: " fun cdst d =>
  bindGet (d.GetUInt16 tagNumberOfRemainingSuboperations .optionalElement)
    "CGetRsp.decode: failed to decode NumberOfRemainingSuboperations: " fun remaining d =>
  bindGet (d.GetUInt16 tagNumberOfCompletedSuboperations .optionalElement)
    "CGetRsp.decode: failed to decode NumberOfCompletedSuboperations: " fun completed d =>
  bindGet (d.GetUInt16 tagNumberOfFailedSuboperations .optionalElement)
    "CGetRsp.decode: failed to decode NumberOfFailedSuboperations: " fun failedOps d =>
  bindGet (d.GetUInt16 tagNumberOfWarningSuboperations .optionalElement)
    "CGetRsp.decode: failed to decode NumberOfWarningSuboperations: " fun warning d =>
  bindGet d.GetStatus
    "CGetRsp.decode: failed to decode Status: " fun st d =>
  .ok { affectedSOPClassUID := sopClass, messageIDBeingRespondedTo := msgID,
        commandDataSetType := cdst, numberOfRemainingSuboperations := remaining,
        numberOfCompletedSuboperations := completed, numberOfFailedSuboperations := failedOps,
        numberOfWarningSuboperations := warning, status := st, extra := d.UnparsedElements }

/-- CMoveRq.decode (dimse cmoverq source). -/
def CMoveRq.decode (d : MessageDecoder) : Except String CMoveRq :=
  bindGet (d.GetString tagAffectedSOPClassUID .requiredElement)
    "cMoveRq.decode: failed to decode AffectedSOPClassUID: " fun sopClass d =>
  bindGet (d.GetUInt16 tagMessageID .requiredElement)
    "cMoveRq.decode: failed to decode MessageID: " fun messageID d =>
  bindGet (d.GetUInt16 tagPriority .requiredElement)
    "cMoveRq.decode: failed to decode Priority: " fun priority d =>
  bindGet (d.GetString tagMoveDestination .requiredElement)
    "cMoveRq.decode: failed to decode MoveDestination: " fun dest d =>
  bindGet d.GetCommandDataSetType
    "cMoveRq.decode: failed to decode CommandDataSetType: " fun cdst d =>
  .ok { affectedSOPClassUID := sopClass, messageID := messageID, priority := priority,
        moveDestination := dest, commandDataSetType := cdst, extra := d.UnparsedElements }

/-- CMoveRsp.decode (dimse cmoversp source). -/
def CMoveRsp.decode (d : MessageDecoder) : Except String CMoveRsp :=
  bindGet (d.GetString tagAffectedSOPClassUID .requiredElement)
    "cMoveRsp.decode: failed to decode AffectedSOPClassUID: " fun sopClass d =>
  bindGet (d.GetUInt16 tagMessageIDBeingRespondedTo .requiredElement)
    "cMoveRsp.decode: failed to decode MessageIDBeingRespondedTo: " fun msgID d =>
  bindGet d.GetCommandDataSetType
    "cMoveRsp.decode: failed to decode CommandDataSetType: " fun cdst d =>
  bindGet (d.GetUInt16 tagNumberOfRemainingSuboperations .optionalElement)
    "cMoveRsp.decode: failed to decode NumberOfRemainingSuboperations: " fun remaining d =>
  bindGet (d.GetUInt16 tagNumberOfCompletedSuboperations .optionalElement)
    "cMoveRsp.decode: failed to decode NumberOfCompletedSuboperations: " fun completed d =>
  bindGet (d.GetUInt16 tagNumberOfFailedSuboperations .optionalElement)
    "cMoveRsp.decode: failed to decode NumberOfFailedSuboperations: " fun failedOps d =>
  bindGet (d.GetUInt16 tagNumberOfWarningSuboperations .optionalElement)
    "cMoveRsp.decode: failed to decode NumberOfWarningSuboperations: " fun warning d =>
  bindGet d.GetStatus
    "cMoveRsp.decode: failed to decode Status: " fun st d =>
  .ok { affectedSOPClassUID := sopClass, messageIDBeingRespondedTo := msgID,
        commandDataSetType := cdst, numberOfRemainingSuboperations := remaining,
        numberOfCompletedSuboperations := completed, numberOfFailedSuboperations := failedOps,
        numberOfWarningSuboperations := warning, status := st, extra := d.UnparsedElements }

/-- CEchoRq.decode (dimse cechorq source, part_003). -/
def CEchoRq.decode (d : MessageDecoder) : Except String CEchoRq :=
  bindGet (d.GetUInt16 tagMessageID .requiredElement)
    "CEchoRq.decode: failed to get MessageID: " fun messageID d =>
  bindGet d.GetCommandDataSetType
    "CEchoRq.decode: failed to get CommandDataSetType: " fun cdst d =>
  .ok { messageID := messageID, commandDataSetType := cdst, extra := d.UnparsedElements }

/-- CEchoRsp.decode (dimse cechorsp source). -/
def CEchoRsp.decode (d : MessageDecoder) : Except String CEchoRsp :=
  bindGet (d.GetUInt16 tagMessageIDBeingRespondedTo .requiredElement)
    "cEchoRsp.decode: failed to decode MessageIDBeingRespondedTo: " fun msgID d =>
  bindGet d.GetCommandDataSetType
    "cEchoRsp.decode: failed to decode CommandDataSetType: " fun cdst d =>
  bindGet d.GetStatus
    "cEchoRsp.decode: failed to decode Status: " fun st d =>
  .ok { messageIDBeingRespondedTo := msgID, commandDataSetType := cdst, status := st,
        extra := d.UnparsedElements }

/-- MessageDecoder.Decode: dispatch on the command-field value to the ten
typed decoders (message-decoder source); an unknown value is an error. -/
def MessageDecoder.Decode (d : MessageDecoder) (commandField : Nat) : Except String Message :=
  if commandField = 0x0001 then (CStoreRq.decode d).map Message.cStoreRq
  else if commandField = 0x8001 then (CStoreRsp.decode d).map Message.cStoreRsp
  else if commandField = 0x0020 then (CFindRq.decode d).map Message.cFindRq
  else if commandField = 0x8020 then (CFindRsp.decode d).map Message.cFindRsp
  else if commandField = 0x0010 then (CGetRq.decode d).map Message.cGetRq
  else if commandField = 0x8010 then (CGetRsp.decode d).map Message.cGetRsp
  else if commandField = 0x0021 then (CMoveRq.decode d).map Message.cMoveRq
  else if commandField = 0x8021 then (CMoveRsp.decode d).map Message.cMoveRsp
  else if commandField = 0x0030 then (CEchoRq.decode d).map Message.cEchoRq
  else if commandField = 0x8030 then (CEchoRsp.decode d).map Message.cEchoRsp
  else .error "unknown DIMSE command"

/-- ReadMessage (dimse message source): fill a decoder from the dataset
elements (overwriting per tag, as a Go map insertion does), read the
required CommandField element and dispatch. -/
def ReadMessage (dataset : List DicomElement) : Except String Message :=
  let d : MessageDecoder := dataset.foldl MessageDecoder.insert { elements := [] }
  match d.GetUInt16 tagCommandField .requiredElement with
  | (.error e, _) => .error ("ReadMessage: failed to get command field: " ++ e)
  | (.ok cf, d1) => d1.Decode cf

/-! The ad-hoc TLV scan DecodeDIMSECommandMap
(dimse/command_assembler.go). -/

/-- The result map of DecodeDIMSECommandMap.  The Go map from tag string to
value is modelled with one optional field per known tag plus the unknown-tag
entries (keyed by tag, later entries overwriting earlier ones as in a map). -/
structure CommandMap where
  sopClassUID : Option (List Nat)
  commandField : Option Nat
  messageID : Option Nat
  messageIDBeingRespondedTo : Option Nat
  dataSetType : Option Nat
  priority : Option Nat
  unknown : List ((Nat × Nat) × List Nat)
deriving DecidableEq, Repr

/-- The empty command map. -/
def CommandMap.empty : CommandMap :=
  { sopClassUID := none, commandField := none, messageID := none,
    messageIDBeingRespondedTo := none, dataSetType := none, priority := none,
    unknown := [] }

/-- Little-endian uint16 from the first two bytes of a value. -/
def le16 (val : List Nat) : Nat :=
  match val with
  | v0 :: v1 :: _ => v0 + 256 * v1
  | _ => 0

/-- One switch arm of DecodeDIMSECommandMap: store the value under the
decoded tag.  The known uint16 tags are stored only when the value holds at
least two bytes (otherwise the element is dropped, as in the source); the
tag labelled Priority by the source is (0000,0800).  Unknown tags keep their
raw bytes. -/
def CommandMap.insertTag (acc : CommandMap) (group element : Nat) (val : List Nat) :
    CommandMap :=
  if group = 0 ∧ element = 0x0002 then { acc with sopClassUID := some val }
  else if group = 0 ∧ element = 0x0100 then
    if 2 ≤ val.length then { acc with commandField := some (le16 val) } else acc
  else if group = 0 ∧ element = 0x0110 then
    if 2 ≤ val.length then { acc with messageID := some (le16 val) } else acc
  else if group = 0 ∧ element = 0x0120 then
    if 2 ≤ val.length then { acc with messageIDBeingRespondedTo := some (le16 val) } else acc
  else if group = 0 ∧ element = 0x0200 then
    if 2 ≤ val.length then { acc with dataSetType := some (le16 val) } else acc
  else if group = 0 ∧ element = 0x0800 then
    if 2 ≤ val.length then { acc with priority := some (le16 val) } else acc
  else
    { acc with unknown :=
        (acc.unknown.filter (fun kv => ¬ kv.1 = (group, element))) ++ [((group, element), val)] }

/-- The scan loop of DecodeDIMSECommandMap: read a 2-byte little-endian
group, a 2-byte element, a 4-byte length, then exactly length value bytes;
any short read stops the scan, returning what was accumulated. -/
def decodeLoop : List Nat → CommandMap → CommandMap
  | g0 :: g1 :: e0 :: e1 :: l0 :: l1 :: l2 :: l3 :: rest, acc =>
    let len := l0 + 256 * l1 + 65536 * l2 + 16777216 * l3
    if rest.length < len then acc
    else decodeLoop (rest.drop len)
      (acc.insertTag (g0 + 256 * g1) (e0 + 256 * e1) (rest.take len))
  | _, acc => acc
termination_by raw _ => raw.length
decreasing_by
  simp only [List.length_drop, List.length_cons]
  omega

/-- DecodeDIMSECommandMap (dimse/command_assembler.go). -/
def DecodeDIMSECommandMap (raw : List Nat) : CommandMap :=
  decodeLoop raw CommandMap.empty

/-- The scanned uint16 fields of a command map are in range; the invariant
carried through the TLV scan over byte-valued input. -/
def CommandMapU16Bounded (m : CommandMap) : Prop :=
  (∀ v, m.messageID = some v → v < 65536) ∧ (∀ v, m.priority = some v → v < 65536)

/-! The command assembler (dimse/command_assembler.go). -/

/-- Assembler state (dimse.CommandAssembler).  The Go byte field contextID
starts at its zero value 0, which the code also uses as the unset sentinel. -/
structure CommandAssembler where
  contextID : Nat
  commandBytes : List Nat
  command : Option Message
  dataBytes : List Nat
  readAllCommand : Bool
  readAllData : Bool
deriving DecidableEq, Repr

/-- The zero-value assembler. -/
def CommandAssembler.empty : CommandAssembler :=
  { contextID := 0, commandBytes := [], command := none, dataBytes := [],
    readAllCommand := false, readAllData := false }

/-- The item-loop errors of AddDataPDU: a context ID differing from the
established one, or a second Last chunk on the command (true) or data
(false) channel. -/
inductive AssemblyError where
  | mixedContext
  | duplicateLast (command : Bool)
deriving DecidableEq, Repr

/-- Channel handling for one PDV item (the body of the item loop after the
context check): append the payload to the channel buffer, and on a Last item
fail if that channel was already complete, otherwise mark it complete. -/
def addItemChannel (a : CommandAssembler) (it : PresentationDataValueItem) :
    Except AssemblyError CommandAssembler :=
  if it.command then
    let a1 := { a with commandBytes := a.commandBytes ++ it.value }
    if it.last then
      if a1.readAllCommand then .error (.duplicateLast true)
      else .ok { a1 with readAllCommand := true }
    else .ok a1
  else
    let a1 := { a with dataBytes := a.dataBytes ++ it.value }
    if it.last then
      if a1.readAllData then .error (.duplicateLast false)
      else .ok { a1 with readAllData := true }
    else .ok a1

/-- Context check for one PDV item: a zero assembler context ID is the
unset sentinel and is overwritten by the item context ID; an established
nonzero context ID must be matched exactly. -/
def addItem (a : CommandAssembler) (it : PresentationDataValueItem) :
    Except AssemblyError CommandAssembler :=
  if a.contextID = 0 then addItemChannel { a with contextID := it.contextID } it
  else if ¬ a.contextID = it.contextID then .error .mixedContext
  else addItemChannel a it

/-- The item loop of AddDataPDU over the PDVs of one P-DATA-TF. -/
def itemsLoop (a : CommandAssembler) : List PresentationDataValueItem →
    Except AssemblyError CommandAssembler
  | [] => .ok a
  | it :: rest =>
    match addItem a it with
    | .error e => .error e
    | .ok a1 => itemsLoop a1 rest

/-- The command-buffer decode step of AddDataPDU (command_assembler.go,
lines choosing the parse path): a buffer under 100 bytes never reaches the
full parser; instead the TLV scan runs, and only a scanned CommandField of
48 (C-ECHO-RQ) synthesizes the three-element dataset (CommandField 48,
MessageID defaulting to 1, and tag (0000,0800) defaulting to 257), any
other scan outcome yielding the empty dataset.  A buffer of 100 bytes or
more goes to the external full parser (the suyashkumar dicom library,
outside this repository), abstracted as the externalParse argument. -/
def decodeCommandBytes (externalParse : List Nat → Except String (List DicomElement))
    (raw : List Nat) : Except String (List DicomElement) :=
  if raw.length < 100 then
    let data := DecodeDIMSECommandMap raw
    match data.commandField with
    | some cf =>
      if cf = 48 then
        .ok [ { tag := tagCommandField, value := some (.ints [48]) },
              { tag := tagMessageID,
                value := some (.ints [Int.ofNat (data.messageID.getD 1)]) },
              { tag := tagCommandDataSetType,
                value := some (.ints [Int.ofNat (data.priority.getD 257)]) } ]
      else .ok []
    | none => .ok []
  else
    match externalParse raw with
    | .error e => .error ("P_DATA_TF: failed to parse command bytes: " ++ e)
    | .ok ds => .ok ds

/-- The decode step composed with ReadMessage, as run by AddDataPDU once
the command channel is complete. -/
def decodeCommandStep (externalParse : List Nat → Except String (List DicomElement))
    (raw : List Nat) : Except String Message :=
  match decodeCommandBytes externalParse raw with
  | .error e => .error e
  | .ok ds => ReadMessage ds

/-- The cached-command logic of AddDataPDU: decode only when no typed
command has been stored yet. -/
def decodeCommandIfNeeded (externalParse : List Nat → Except String (List DicomElement))
    (a : CommandAssembler) : Except String Message :=
  match a.command with
  | some m => .ok m
  | none => decodeCommandStep externalParse a.commandBytes

/-- The error type of AddDataPDU: an item-loop error or a decode failure. -/
inductive AddDataPDUError where
  | assembly (e : AssemblyError)
  | decodeFailure (msg : String)
deriving DecidableEq, Repr

/-- AddDataPDU (dimse/command_assembler.go): process every PDV of the PDU;
if the command channel is still incomplete answer no message; otherwise
decode (or reuse) the typed command; when it expects data and the data
channel is incomplete answer no message; otherwise answer the completed
triple of context ID, message and accumulated data bytes, resetting the
assembler to its zero value.  The returned pair is the new assembler state
with the optional completed triple. -/
def CommandAssembler.AddDataPDU
    (externalParse : List Nat → Except String (List DicomElement))
    (a : CommandAssembler) (p : PDataTf) :
    Except AddDataPDUError (CommandAssembler × Option (Nat × Message × List Nat)) :=
  match itemsLoop a p.items with
  | .error e => .error (.assembly e)
  | .ok a1 =>
    if a1.readAllCommand = false then .ok (a1, none)
    else
      match decodeCommandIfNeeded externalParse a1 with
      | .error e => .error (.decodeFailure e)
      | .ok m =>
        let a2 := { a1 with command := some m }
        if m.HasData ∧ a2.readAllData = false then .ok (a2, none)
        else .ok (CommandAssembler.empty, some (a2.contextID, m, a2.dataBytes))

/-- A concrete stand-in for the external full parser in closed statements;
the paths studied under 100 bytes never consult it. -/
def externalParseUnused : List Nat → Except String (List DicomElement) :=
  fun _ => .error "external full parse not exercised"

/-- Implicit-VR little-endian wire bytes of a minimal C-ECHO-RQ command
element: tag (0000,0100), length 2, value 48 little-endian. -/
def cEchoRqMinimalBytes : List Nat :=
  [0, 0, 0, 1, 2, 0, 0, 0, 48, 0]

/-- Implicit-VR little-endian wire bytes of a full, internally consistent
C-ECHO-RSP command set: CommandGroupLength (0000,0000) of 40, CommandField
(0000,0100) of 0x8030, MessageIDBeingRespondedTo (0000,0120) of 1,
CommandDataSetType (0000,0800) of 0x0101, Status (0000,0900) of 0;
52 bytes in total. -/
def cEchoRspWireBytes : List Nat :=
  [0, 0, 0, 0, 4, 0, 0, 0, 40, 0, 0, 0,
   0, 0, 0, 1, 2, 0, 0, 0, 0x30, 0x80,
   0, 0, 0x20, 1, 2, 0, 0, 0, 1, 0,
   0, 0, 0, 8, 2, 0, 0, 0, 1, 1,
   0, 0, 0, 9, 2, 0, 0, 0, 0, 0]

end NetDicom

namespace NetDicom

/-- C1: every pair of state and event yields a defined next state among the
thirteen states; a pair absent from the table falls back to action AA-2 and
lands in sta01. -/
theorem transition_totality (s : State) (e : Event) (env : ActionEnv) :
    runOneStepNext s e env ∈ allStates ∧
    (findAction s e = none → runOneStepNext s e env = State.sta01) := by
  constructor
  · have h : ∀ s1 : State, s1 ∈ allStates := by
      intro s1
      cases s1 <;> simp [allStates]
    exact h _
  · intro h
    simp [runOneStepNext, h, actionNextState]

/-- Witness for C1 at the concrete pair (sta06, evt14), which is absent from
the transition table, so the fallback applies. -/
theorem transition_totality_witness :
    runOneStepNext State.sta06 Event.evt14 (ActionEnv.mk true true true true) = State.sta01 :=
  (transition_totality State.sta06 Event.evt14 (ActionEnv.mk true true true true)).2 (by decide)

/-- C8: from every state a finite sequence of events drawn from evt17 and
evt18 alone drives the engine to sta01 (a single evt17 suffices). -/
theorem terminal_convergence (s : State) :
    ∃ evs : List Event, (∀ e ∈ evs, e = Event.evt17 ∨ e = Event.evt18) ∧
      ∀ env : ActionEnv, runEvents env s evs = State.sta01 := by
  refine ⟨[Event.evt17], ?_, ?_⟩
  · intro e he
    simp at he
    exact Or.inl he
  · intro env
    obtain ⟨b1, b2, b3, b4⟩ := env
    cases s <;> cases b1 <;> cases b2 <;> cases b3 <;> cases b4 <;> decide

/-- Witness for C8 at the concrete state sta05. -/
theorem terminal_convergence_witness :
    ∃ evs : List Event, (∀ e ∈ evs, e = Event.evt17 ∨ e = Event.evt18) ∧
      ∀ env : ActionEnv, runEvents env State.sta05 evs = State.sta01 :=
  terminal_convergence State.sta05

end NetDicom

namespace NetDicom

/-! Helper lemmas about the fragmenter. -/

theorem splitLoop_nil (ctx : Nat) (cmd : Bool) (mc : Nat) (hpos : 0 < mc) :
    splitLoop ctx cmd mc hpos [] = [] := by
  rw [splitLoop.eq_def]
  simp

theorem splitLoop_ne_nil (ctx : Nat) (cmd : Bool) (mc : Nat) (hpos : 0 < mc)
    (data : List Nat) (h : data ≠ []) :
    splitLoop ctx cmd mc hpos data =
      { items := [{ contextID := ctx, command := cmd, last := false,
                    value := data.take (min data.length mc) }] } ::
        splitLoop ctx cmd mc hpos (data.drop (min data.length mc)) := by
  rw [splitLoop.eq_def]
  simp [h]

theorem splitLoop_shape (ctx : Nat) (cmd : Bool) (mc : Nat) (hpos : 0 < mc) :
    ∀ n (data : List Nat), data.length ≤ n →
      ∀ p ∈ splitLoop ctx cmd mc hpos data, ∃ chunk : List Nat,
        p.items = [{ contextID := ctx, command := cmd, last := false, value := chunk }] ∧
        chunk ≠ [] ∧ chunk.length ≤ mc := by
  intro n
  induction n with
  | zero =>
    intro data hlen p hp
    have hd : data = [] := List.eq_nil_of_length_eq_zero (Nat.le_zero.mp hlen)
    rw [hd, splitLoop_nil] at hp
    simp at hp
  | succ n ih =>
    intro data hlen p hp
    by_cases h : data = []
    · rw [h, splitLoop_nil] at hp
      simp at hp
    · rw [splitLoop_ne_nil ctx cmd mc hpos data h] at hp
      have hd : 0 < data.length := List.length_pos.mpr h
      rcases List.mem_cons.mp hp with h1 | h2
      · refine ⟨data.take (min data.length mc), ?_, ?_, ?_⟩
        · rw [h1]
        · have hlt : (data.take (min data.length mc)).length = min data.length mc := by
            simp [List.length_take]
          intro hc
          rw [hc] at hlt
          simp at hlt
          omega
        · simp [List.length_take]
      · refine ih (data.drop (min data.length mc)) ?_ p h2
        simp [List.length_drop]
        omega

theorem splitLoop_count (ctx : Nat) (cmd : Bool) (mc : Nat) (hpos : 0 < mc) :
    ∀ n (data : List Nat), data.length ≤ n →
      (splitLoop ctx cmd mc hpos data).length = (data.length + mc - 1) / mc := by
  intro n
  induction n with
  | zero =>
    intro data hlen
    have hd : data = [] := List.eq_nil_of_length_eq_zero (Nat.le_zero.mp hlen)
    rw [hd, splitLoop_nil]
    simp
    exact (Nat.div_eq_of_lt (by omega)).symm
  | succ n ih =>
    intro data hlen
    by_cases h : data = []
    · rw [h, splitLoop_nil]
      simp
      exact (Nat.div_eq_of_lt (by omega)).symm
    · rw [splitLoop_ne_nil ctx cmd mc hpos data h]
      have hd : 0 < data.length := List.length_pos.mpr h
      rw [List.length_cons, ih (data.drop (min data.length mc)) (by simp [List.length_drop]; omega)]
      simp only [List.length_drop]
      rcases Nat.le_total data.length mc with hle | hle
      · have h1 : min data.length mc = data.length := by omega
        rw [h1]
        have h2 : (data.length - data.length + mc - 1) / mc = 0 := by
          apply Nat.div_eq_of_lt
          omega
        rw [h2]
        have h3 : (data.length + mc - 1) / mc = 1 := by
          apply Nat.div_eq_of_lt_le
          · omega
          · omega
        omega
      · have h1 : min data.length mc = mc := by omega
        rw [h1]
        have h2 : data.length + mc - 1 = (data.length - mc + mc - 1) + mc := by omega
        rw [h2, Nat.add_div_right _ hpos]

theorem splitLoop_single (ctx : Nat) (cmd : Bool) (mc : Nat) (hpos : 0 < mc)
    (data : List Nat) (hne : data ≠ []) (hle : data.length ≤ mc) :
    splitLoop ctx cmd mc hpos data =
      [{ items := [{ contextID := ctx, command := cmd, last := false, value := data }] }] := by
  rw [splitLoop_ne_nil _ _ _ _ _ hne]
  have h1 : min data.length mc = data.length := by omega
  rw [h1, List.take_length, List.drop_length, splitLoop_nil]

theorem setLastFlag_length (l : List PDataTf) : (setLastFlag l).length = l.length := by
  induction l with
  | nil => rfl
  | cons p rest ih =>
    cases rest with
    | nil => rfl
    | cons q rest2 =>
      rw [setLastFlag, List.length_cons, List.length_cons, ih]

theorem setLastFlag_items (l : List PDataTf) (p : PDataTf) (hp : p ∈ setLastFlag l) :
    ∃ q ∈ l, p.items = q.items ∨ (∃ it rest, q.items = it :: rest ∧
      p.items = { it with last := true } :: rest) := by
  induction l with
  | nil => simp [setLastFlag] at hp
  | cons r rest ih =>
    cases rest with
    | nil =>
      rw [setLastFlag] at hp
      simp at hp
      refine ⟨r, by simp, ?_⟩
      cases hq : r.items with
      | nil =>
        left
        rw [hp, hq]
      | cons it rest2 =>
        right
        exact ⟨it, rest2, rfl, by rw [hp, hq]⟩
    | cons q rest2 =>
      rw [setLastFlag] at hp
      rcases List.mem_cons.mp hp with h1 | h2
      · exact ⟨r, by simp, Or.inl (by rw [h1])⟩
      · rcases ih h2 with ⟨q1, hq1, hq2⟩
        exact ⟨q1, by simp [hq1], hq2⟩

theorem setLastFlag_lastFlags (l : List PDataTf)
    (hall : ∀ q ∈ l, pduLastFlag q = false ∧ q.items ≠ [])
    (hne : l ≠ []) :
    (setLastFlag l).map pduLastFlag = List.replicate (l.length - 1) false ++ [true] := by
  induction l with
  | nil => exact absurd rfl hne
  | cons p rest ih =>
    cases rest with
    | nil =>
      rw [setLastFlag]
      obtain ⟨h1, h2⟩ := hall p (by simp)
      cases hq : p.items with
      | nil => exact absurd hq h2
      | cons it rest2 =>
        simp [pduLastFlag]
    | cons q rest2 =>
      rw [setLastFlag]
      obtain ⟨h1, h2⟩ := hall p (by simp)
      have hrec := ih (fun r hr => hall r (by simp [hr])) (by simp)
      rw [List.map_cons, hrec, h1]
      simp [List.replicate_succ]

/-- Structure of the fragmenter output: the produced PDU count is the
ceiling of the payload length over maxChunkSize, every PDU holds exactly one
PDV with the requested context ID and command flag and a nonempty chunk of
at most maxChunkSize bytes, and the Last flag is true exactly on the final
PDU.  Shared backbone for the fragmentation properties below. -/
theorem splitDataIntoPDUs_struct (M : Int) (ctx : Nat) (cmd : Bool) (data : List Nat)
    (hne : data ≠ []) (hM : 8 < M) :
    ∃ l, splitDataIntoPDUs M ctx cmd data = SplitResult.pdus l ∧
      l.length = (data.length + (M - 8).toNat - 1) / (M - 8).toNat ∧
      (∀ p ∈ l, ∃ chunk b, p.items =
          [{ contextID := ctx, command := cmd, last := b, value := chunk }] ∧
        chunk ≠ [] ∧ chunk.length ≤ (M - 8).toNat) ∧
      l.map pduLastFlag = List.replicate (l.length - 1) false ++ [true] := by
  have hlen0 : ¬ data.length = 0 := by simpa using hne
  have hmax : ¬ M - 8 ≤ 0 := by omega
  have hpos : 0 < (M - 8).toNat := by omega
  refine ⟨setLastFlag (splitLoop ctx cmd (M - 8).toNat hpos data), ?_, ?_, ?_, ?_⟩
  · rw [splitDataIntoPDUs, dif_neg hlen0, dif_neg hmax]
  · rw [setLastFlag_length]
    exact splitLoop_count ctx cmd (M - 8).toNat hpos data.length data (le_refl _)
  · intro p hp
    rcases setLastFlag_items _ p hp with ⟨q, hq, hcase⟩
    rcases splitLoop_shape ctx cmd (M - 8).toNat hpos data.length data (le_refl _) q hq
      with ⟨chunk, hitems, hchne, hchlen⟩
    rcases hcase with h1 | ⟨it, rest, h2, h3⟩
    · exact ⟨chunk, false, by rw [h1, hitems], hchne, hchlen⟩
    · rw [hitems] at h2
      have hit : it = { contextID := ctx, command := cmd, last := false, value := chunk } :=
        (((List.cons.injEq _ _ _ _).mp h2).1).symm
      have hrest : rest = [] := ((List.cons.injEq _ _ _ _).mp h2).2.symm
      refine ⟨chunk, true, ?_, hchne, hchlen⟩
      rw [h3, hit, hrest]
  · rw [setLastFlag_length]
    apply setLastFlag_lastFlags
    · intro q hq
      rcases splitLoop_shape ctx cmd (M - 8).toNat hpos data.length data (le_refl _) q hq
        with ⟨chunk, hitems, hchne, hchlen⟩
      constructor
      · rw [pduLastFlag, hitems]
      · rw [hitems]
        simp
    · rw [splitLoop_ne_nil ctx cmd (M - 8).toNat hpos data hne]
      simp

/-- C9: for a nonempty payload and peer max PDU size above 8, the fragmenter
produces exactly the ceiling of the payload length over peerMaxPDUSize minus 8
many P-DATA-TF PDUs, each with a single PDV bearing the requested context ID
and command flag, and the Last flag set exactly on the final PDU. -/
theorem fragmentation_pdu_count_and_last (M : Int) (ctx : Nat) (cmd : Bool) (data : List Nat)
    (hne : data ≠ []) (hM : 8 < M) :
    ∃ l, splitDataIntoPDUs M ctx cmd data = SplitResult.pdus l ∧
      l.length = (data.length + (M - 8).toNat - 1) / (M - 8).toNat ∧
      (∀ p ∈ l, ∃ chunk b, p.items =
          [{ contextID := ctx, command := cmd, last := b, value := chunk }] ∧
        chunk ≠ [] ∧ chunk.length ≤ (M - 8).toNat) ∧
      l.map pduLastFlag = List.replicate (l.length - 1) false ++ [true] :=
  splitDataIntoPDUs_struct M ctx cmd data hne hM

/-- Witness for C9 at the spec scenario: a 100000-byte payload with peer
max-PDU-size 16384 yields exactly 7 PDUs with Last set only on the seventh. -/
theorem fragmentation_pdu_count_and_last_witness :
    ∃ l, splitDataIntoPDUs 16384 3 false (List.replicate 100000 0) = SplitResult.pdus l ∧
      l.length = 7 ∧ l.map pduLastFlag = List.replicate 6 false ++ [true] := by
  have hne : List.replicate 100000 (0 : Nat) ≠ [] := by
    intro h
    have h1 := congrArg List.length h
    rw [List.length_replicate] at h1
    exact absurd h1 (by norm_num)
  rcases fragmentation_pdu_count_and_last 16384 3 false (List.replicate 100000 0) hne
    (by norm_num) with ⟨l, hl, hcount, hshape, hflags⟩
  rw [List.length_replicate] at hcount
  have ht : ((16384 : Int) - 8).toNat = 16376 := by decide
  rw [ht] at hcount
  have h7 : l.length = 7 := by rw [hcount]
  refine ⟨l, hl, h7, ?_⟩
  rw [hflags, h7]

/-- C2 counterexample: with peer max-PDU-size 16 and an 8-byte payload, the
single produced P-DATA-TF serializes to 20 bytes on the wire (6 PDU header
bytes, 4 PDV length bytes, context-ID, message-control header and the 8
payload bytes), exceeding the peer maximum of 16. -/
theorem fragmentation_wire_bound_counterexample :
    splitDataIntoPDUs 16 1 true [0, 0, 0, 0, 0, 0, 0, 0] =
      SplitResult.pdus [PDataTf.mk [PresentationDataValueItem.mk 1 true true
        [0, 0, 0, 0, 0, 0, 0, 0]]] ∧
    16 < pDataTfWireSize (PDataTf.mk [PresentationDataValueItem.mk 1 true true
        [0, 0, 0, 0, 0, 0, 0, 0]]) := by
  constructor
  · rw [splitDataIntoPDUs, dif_neg (by decide), dif_neg (by decide),
      splitLoop_single _ _ _ _ _ (by decide) (by decide)]
    decide
  · decide

/-- C2, amended: every P-DATA-TF produced by the fragmenter for a nonempty
payload under a peer max-PDU-size above 8 has total serialized wire length,
6-byte PDU header and PDV header bytes included, of at most
peerMaxPDUSize plus 4 (equivalently, its body after the 6-byte PDU header is
at most peerMaxPDUSize minus 2). -/
theorem fragmentation_wire_bound (M : Int) (ctx : Nat) (cmd : Bool) (data : List Nat)
    (hne : data ≠ []) (hM : 8 < M) (l : List PDataTf)
    (hl : splitDataIntoPDUs M ctx cmd data = SplitResult.pdus l)
    (p : PDataTf) (hp : p ∈ l) :
    (pDataTfWireSize p : Int) ≤ M + 4 := by
  rcases splitDataIntoPDUs_struct M ctx cmd data hne hM with ⟨l1, hl1, hcount, hshape, hflags⟩
  rw [hl] at hl1
  have hll : l = l1 := by
    cases hl1
    rfl
  subst hll
  rcases hshape p hp with ⟨chunk, b, hitems, hchne, hchlen⟩
  rw [pDataTfWireSize, hitems]
  simp [pdvWireSize]
  have ht : (M - 8).toNat = (M - 8) := by omega
  omega

/-- Witness for C2 (amended) at peer max-PDU-size 16 with an 8-byte payload. -/
theorem fragmentation_wire_bound_witness :
    (pDataTfWireSize (PDataTf.mk [PresentationDataValueItem.mk 1 true true
      [0, 0, 0, 0, 0, 0, 0, 0]]) : Int) ≤ 16 + 4 :=
  fragmentation_wire_bound 16 1 true [0, 0, 0, 0, 0, 0, 0, 0] (by decide) (by decide)
    [PDataTf.mk [PresentationDataValueItem.mk 1 true true [0, 0, 0, 0, 0, 0, 0, 0]]]
    (by rw [splitDataIntoPDUs, dif_neg (by decide), dif_neg (by decide),
          splitLoop_single _ _ _ _ _ (by decide) (by decide)]
        decide)
    _ (by simp)

/-- C5 counterexample: with peer max-PDU-size 0 the fragmentation step of
DT-1 panics, while the spec behaviour is a local abort via evt15; the two
outcomes differ. -/
theorem fragmentation_evt15_counterexample :
    actionDt1Fragment 0 1 [0] = Dt1Outcome.panicked ∧
    actionDt1FragmentSpec 0 1 [0] = Dt1Outcome.localAbortEvt15 ∧
    Dt1Outcome.panicked ≠ Dt1Outcome.localAbortEvt15 := by
  refine ⟨by decide, ?_, by decide⟩
  rw [actionDt1FragmentSpec, if_pos (by decide)]

/-- C5, amended: whenever the recorded peer max-PDU-size is at most 8 (0
included), the engine refuses to send by panicking in splitDataIntoPDUs;
the failure never surfaces as the evt15 abort path. -/
theorem fragmentation_small_max_panics (M : Int) (ctx : Nat) (data : List Nat)
    (hne : data ≠ []) (hM : M ≤ 8) :
    actionDt1Fragment M ctx data = Dt1Outcome.panicked := by
  have h : splitDataIntoPDUs M ctx true data = SplitResult.panicked := by
    rw [splitDataIntoPDUs, dif_neg (by simpa using hne)]
    rw [dif_pos (by omega)]
  simp [actionDt1Fragment, h]

/-- Witness for C5 (amended) at peer max-PDU-size 8. -/
theorem fragmentation_small_max_panics_witness :
    actionDt1Fragment 8 1 [0] = Dt1Outcome.panicked :=
  fragmentation_small_max_panics 8 1 [0] (by decide) (by decide)

/-- C4: a sta02 acceptor dispatches evt06 to action AE-6, and AE-6 on a
protocol version other than 0x0001 sends A-ASSOCIATE-RJ with result 1,
source 2, reason 2, starts the ARTIM timer and moves to sta13. -/
theorem wrong_protocol_version_rejected (v : Nat) (negOk : Bool) (hv : v ≠ 1) :
    findAction State.sta02 Event.evt06 = some StateAction.ae6 ∧
    actionAe6Run v negOk =
      { timerStopped := true, sentRj := some { result := 1, source := 2, reason := 2 },
        timerStarted := true, downcall := none, next := State.sta13 } := by
  refine ⟨by decide, ?_⟩
  simp [actionAe6Run, hv]

/-- Witness for C4 at protocol version 0x0002. -/
theorem wrong_protocol_version_rejected_witness :
    actionAe6Run 2 true =
      { timerStopped := true, sentRj := some { result := 1, source := 2, reason := 2 },
        timerStarted := true, downcall := none, next := State.sta13 } :=
  (wrong_protocol_version_rejected 2 true (by decide)).2

end NetDicom

namespace NetDicom

/-- C10: an element present under the requested tag but carrying an empty
value list makes GetUInt16 answer 0 and GetString answer the empty string,
each with no error, under both RequiredElement and OptionalElement; the
element is not consumed, so it still appears in UnparsedElements. -/
theorem empty_value_list_reads_zero (d : MessageDecoder) (tag : Nat × Nat)
    (opt : IsOptionalElement) (elem : DicomElement)
    (hfind : d.find tag = some elem) :
    (elem.value = some (DicomValue.ints []) →
      d.GetUInt16 tag opt = (Except.ok 0, d) ∧
      elem ∈ (d.GetUInt16 tag opt).2.UnparsedElements) ∧
    (elem.value = some (DicomValue.strings []) →
      d.GetString tag opt = (Except.ok "", d) ∧
      elem ∈ (d.GetString tag opt).2.UnparsedElements) := by
  have hmem : elem ∈ d.elements := List.mem_of_find?_eq_some hfind
  constructor
  · intro hv
    have h1 : d.GetUInt16 tag opt = (Except.ok 0, d) := by
      rw [MessageDecoder.GetUInt16.eq_def, hfind]
      simp [hv]
    exact ⟨h1, by rw [h1]; exact hmem⟩
  · intro hv
    have h1 : d.GetString tag opt = (Except.ok "", d) := by
      rw [MessageDecoder.GetString.eq_def, hfind]
      simp [hv]
    exact ⟨h1, by rw [h1]; exact hmem⟩

/-- Witness for C10 on concrete one-element decoders, one with an empty int
list under the MessageID tag and one with an empty string list under the
AffectedSOPClassUID tag, both requested as RequiredElement. -/
theorem empty_value_list_reads_zero_witness :
    (MessageDecoder.mk [{ tag := (0, 272), value := some (DicomValue.ints []) }]).GetUInt16
        (0, 272) .requiredElement =
      (Except.ok 0, MessageDecoder.mk [{ tag := (0, 272), value := some (DicomValue.ints []) }]) ∧
    (MessageDecoder.mk [{ tag := (0, 2), value := some (DicomValue.strings []) }]).GetString
        (0, 2) .requiredElement =
      (Except.ok "", MessageDecoder.mk [{ tag := (0, 2), value := some (DicomValue.strings []) }]) := by
  constructor
  · exact ((empty_value_list_reads_zero
      (MessageDecoder.mk [{ tag := (0, 272), value := some (DicomValue.ints []) }])
      (0, 272) .requiredElement
      { tag := (0, 272), value := some (DicomValue.ints []) } (by decide)).1 rfl).1
  · exact ((empty_value_list_reads_zero
      (MessageDecoder.mk [{ tag := (0, 2), value := some (DicomValue.strings []) }])
      (0, 2) .requiredElement
      { tag := (0, 2), value := some (DicomValue.strings []) } (by decide)).2 rfl).1

end NetDicom
namespace NetDicom

theorem itemsLoop_append (a : CommandAssembler) (l1 l2 : List PresentationDataValueItem) :
    itemsLoop a (l1 ++ l2) =
      match itemsLoop a l1 with
      | .error e => .error e
      | .ok a1 => itemsLoop a1 l2 := by
  induction l1 generalizing a with
  | nil => simp [itemsLoop]
  | cons it rest ih =>
    rw [List.cons_append]
    simp only [itemsLoop]
    cases h : addItem a it with
    | error e => rfl
    | ok a1 => exact ih a1

theorem addDataPDU_of_itemsLoop_error
    (externalParse : List Nat → Except String (List DicomElement))
    (a : CommandAssembler) (items : List PresentationDataValueItem) (e : AssemblyError)
    (he : itemsLoop a items = .error e) :
    CommandAssembler.AddDataPDU externalParse a (PDataTf.mk items) =
      .error (.assembly e) := by
  rw [CommandAssembler.AddDataPDU.eq_def]
  simp only []
  rw [he]

/-- C6, amended: while a P-DATA-TF is being scanned, the first PDV with a
nonzero context ID establishes the assembly context ID (zero being the Go
zero-value sentinel, absorbed without comparison); once a prefix of the PDV
stream has been consumed cleanly and the established context ID is nonzero,
the next PDV fails the whole AddDataPDU call with a mixed-context error when
its context ID differs, and with a duplicate-last error when its context
matches, it carries the Last bit, and its channel (command or data) was
already complete. -/
theorem mixed_context_and_duplicate_last_errors
    (externalParse : List Nat → Except String (List DicomElement))
    (a a1 : CommandAssembler)
    (l1 l2 : List PresentationDataValueItem) (it : PresentationDataValueItem)
    (hpre : itemsLoop a l1 = .ok a1) :
    (¬ a1.contextID = 0 → ¬ it.contextID = a1.contextID →
      CommandAssembler.AddDataPDU externalParse a (PDataTf.mk (l1 ++ it :: l2)) =
        .error (.assembly .mixedContext)) ∧
    ((a1.contextID = 0 ∨ it.contextID = a1.contextID) → it.last = true →
      (it.command = true → a1.readAllCommand = true →
        CommandAssembler.AddDataPDU externalParse a (PDataTf.mk (l1 ++ it :: l2)) =
          .error (.assembly (.duplicateLast true))) ∧
      (it.command = false → a1.readAllData = true →
        CommandAssembler.AddDataPDU externalParse a (PDataTf.mk (l1 ++ it :: l2)) =
          .error (.assembly (.duplicateLast false)))) := by
  have hloop : ∀ e : AssemblyError, addItem a1 it = .error e →
      itemsLoop a (l1 ++ it :: l2) = .error e := by
    intro e he
    rw [itemsLoop_append, hpre]
    simp only [itemsLoop]
    rw [he]
  constructor
  · intro h0 hne
    apply addDataPDU_of_itemsLoop_error
    apply hloop
    rw [addItem, if_neg h0, if_pos (fun h => hne h.symm)]
  · intro hctx hlast
    constructor
    · intro hcmd hrac
      apply addDataPDU_of_itemsLoop_error
      apply hloop
      have hchan : ∀ b : CommandAssembler, b.readAllCommand = a1.readAllCommand →
          addItemChannel b it = Except.error (AssemblyError.duplicateLast true) := by
        intro b hbc
        rw [addItemChannel]
        simp [hcmd, hlast, hbc, hrac]
      by_cases h0 : a1.contextID = 0
      · rw [addItem, if_pos h0]
        exact hchan _ rfl
      · have heq : it.contextID = a1.contextID := hctx.resolve_left h0
        rw [addItem, if_neg h0, if_neg (not_not_intro heq.symm)]
        exact hchan _ rfl
    · intro hcmd hrad
      apply addDataPDU_of_itemsLoop_error
      apply hloop
      have hchan : ∀ b : CommandAssembler, b.readAllData = a1.readAllData →
          addItemChannel b it = Except.error (AssemblyError.duplicateLast false) := by
        intro b hbd
        rw [addItemChannel]
        simp [hcmd, hlast, hbd, hrad]
      by_cases h0 : a1.contextID = 0
      · rw [addItem, if_pos h0]
        exact hchan _ rfl
      · have heq : it.contextID = a1.contextID := hctx.resolve_left h0
        rw [addItem, if_neg h0, if_neg (not_not_intro heq.symm)]
        exact hchan _ rfl

/-- C6 counterexample: starting from the empty assembler, a first PDV with
context ID 0 followed by a PDV with context ID 7 is accepted without a
mixed-context error, although the later context ID differs from the first;
the zero first context ID merely leaves the assembly context unset. -/
theorem zero_context_establishment_counterexample :
    CommandAssembler.AddDataPDU externalParseUnused CommandAssembler.empty
      (PDataTf.mk [PresentationDataValueItem.mk 0 true false [1],
                   PresentationDataValueItem.mk 7 true false [2]]) =
      Except.ok ({ contextID := 7, commandBytes := [1, 2], command := none, dataBytes := [],
                   readAllCommand := false, readAllData := false }, none) ∧
    (0 : Nat) ≠ 7 := by
  constructor
  · decide
  · decide

/-- Witness for C6 (amended): a clean one-item prefix establishing context
ID 5, then an item with context ID 9, yields the mixed-context error. -/
theorem mixed_context_and_duplicate_last_errors_witness :
    CommandAssembler.AddDataPDU externalParseUnused CommandAssembler.empty
      (PDataTf.mk ([PresentationDataValueItem.mk 5 true false [1]] ++
        PresentationDataValueItem.mk 9 true false [2] :: [])) =
      Except.error (AddDataPDUError.assembly AssemblyError.mixedContext) :=
  (mixed_context_and_duplicate_last_errors externalParseUnused CommandAssembler.empty
    { contextID := 5, commandBytes := [1], command := none, dataBytes := [],
      readAllCommand := false, readAllData := false }
    [PresentationDataValueItem.mk 5 true false [1]] []
    (PresentationDataValueItem.mk 9 true false [2]) (by decide)).1 (by decide) (by decide)

end NetDicom
namespace NetDicom

/-- C7, amended: the completion rule of AddDataPDU.  After the PDVs of the
PDU are consumed cleanly into state a1: while the command channel is
incomplete the call answers no message and no error; once it is complete the
command bytes are decoded into a typed message (or the cached one reused),
and if the message expects data while the data channel is incomplete the
call caches the message and answers no message, otherwise it answers the
triple of context ID, message and the data bytes accumulated so far (empty
in the normal case, but not necessarily) and resets the assembler to its
zero value. -/
theorem addDataPDU_completion_rule
    (externalParse : List Nat → Except String (List DicomElement))
    (a a1 : CommandAssembler) (p : PDataTf)
    (hloop : itemsLoop a p.items = .ok a1) :
    (a1.readAllCommand = false →
      CommandAssembler.AddDataPDU externalParse a p = .ok (a1, none)) ∧
    (∀ m : Message, a1.readAllCommand = true →
      decodeCommandIfNeeded externalParse a1 = .ok m →
      (m.HasData = true → a1.readAllData = false →
        CommandAssembler.AddDataPDU externalParse a p =
          .ok ({ a1 with command := some m }, none)) ∧
      ((m.HasData = false ∨ a1.readAllData = true) →
        CommandAssembler.AddDataPDU externalParse a p =
          .ok (CommandAssembler.empty, some (a1.contextID, m, a1.dataBytes)))) := by
  constructor
  · intro hrac
    rw [CommandAssembler.AddDataPDU.eq_def]
    simp only []
    rw [hloop]
    simp [hrac]
  · intro m hrac hdec
    constructor
    · intro hhd hrad
      rw [CommandAssembler.AddDataPDU.eq_def]
      simp only []
      rw [hloop]
      simp [hrac, hdec, hhd, hrad]
    · intro hcase
      rw [CommandAssembler.AddDataPDU.eq_def]
      simp only []
      rw [hloop]
      rcases hcase with h | h <;> simp [hrac, hdec, h]

end NetDicom
namespace NetDicom

theorem decodeLoop_nil (acc : CommandMap) : decodeLoop [] acc = acc := by
  rw [decodeLoop]
  intro g0 g1 e0 e1 l0 l1 l2 l3 rest h
  exact List.noConfusion h

theorem decodeMap_minimal :
    DecodeDIMSECommandMap cEchoRqMinimalBytes =
      { CommandMap.empty with commandField := some 48 } := by
  rw [DecodeDIMSECommandMap, cEchoRqMinimalBytes]
  rw [decodeLoop]
  norm_num
  rw [CommandMap.insertTag]
  norm_num [le16]
  rw [decodeLoop_nil]

end NetDicom
namespace NetDicom

/-- C7 counterexample: data-channel bytes that arrive before the command
channel completes are returned on completion even though the decoded
message has HasData false; the completed assembly carries the nonempty data
buffer accumulated so far, not an empty one. -/
theorem completion_nonempty_data_counterexample :
    CommandAssembler.AddDataPDU externalParseUnused CommandAssembler.empty
      (PDataTf.mk [PresentationDataValueItem.mk 5 false false [9, 9],
                   PresentationDataValueItem.mk 5 true true cEchoRqMinimalBytes]) =
      Except.ok (CommandAssembler.empty,
        some (5, Message.cEchoRq { messageID := 1, commandDataSetType := 257, extra := [] },
          [9, 9])) ∧
    ([9, 9] : List Nat) ≠ [] := by
  refine ⟨?_, by decide⟩
  have hA : itemsLoop CommandAssembler.empty
      [PresentationDataValueItem.mk 5 false false [9, 9],
       PresentationDataValueItem.mk 5 true true cEchoRqMinimalBytes] =
      .ok { contextID := 5, commandBytes := cEchoRqMinimalBytes, command := none,
            dataBytes := [9, 9], readAllCommand := true, readAllData := false } := by
    rw [cEchoRqMinimalBytes]
    decide
  have hdec : decodeCommandIfNeeded externalParseUnused
      { contextID := 5, commandBytes := cEchoRqMinimalBytes, command := none,
        dataBytes := [9, 9], readAllCommand := true, readAllData := false } =
      .ok (Message.cEchoRq { messageID := 1, commandDataSetType := 257, extra := [] }) := by
    rw [decodeCommandIfNeeded]
    simp only []
    rw [decodeCommandStep, decodeCommandBytes, if_pos (by decide), decodeMap_minimal]
    decide
  rw [CommandAssembler.AddDataPDU.eq_def]
  simp only []
  rw [hA]
  simp [hdec, Message.HasData, commandDataSetTypeNull]

end NetDicom
namespace NetDicom

theorem le16_lt (val : List Nat) (h : ∀ b ∈ val, b < 256) : le16 val < 65536 := by
  rcases val with _ | ⟨v0, _ | ⟨v1, rest⟩⟩
  · simp [le16]
  · have h0 := h v0 (by simp)
    simp [le16]
  · have h0 := h v0 (by simp)
    have h1 := h v1 (by simp)
    simp [le16]
    omega

theorem insertTag_bounded (acc : CommandMap) (g e : Nat) (val : List Nat)
    (hval : ∀ b ∈ val, b < 256) (hacc : CommandMapU16Bounded acc) :
    CommandMapU16Bounded (acc.insertTag g e val) := by
  have hle := le16_lt val hval
  rw [CommandMap.insertTag]
  unfold CommandMapU16Bounded at *
  split_ifs <;> simp_all

theorem decodeLoop_no_header (raw : List Nat) (acc : CommandMap) (h : raw.length < 8) :
    decodeLoop raw acc = acc := by
  rw [decodeLoop]
  intro g0 g1 e0 e1 l0 l1 l2 l3 rest hr
  rw [hr] at h
  simp at h
  omega

theorem decodeLoop_bounded : ∀ n, ∀ raw : List Nat, raw.length ≤ n → ∀ acc : CommandMap,
    (∀ b ∈ raw, b < 256) → CommandMapU16Bounded acc →
    CommandMapU16Bounded (decodeLoop raw acc) := by
  intro n
  induction n with
  | zero =>
    intro raw hlen acc hraw hacc
    have hr : raw = [] := List.eq_nil_of_length_eq_zero (Nat.le_zero.mp hlen)
    rw [hr, decodeLoop_nil]
    exact hacc
  | succ n ih =>
    intro raw hlen acc hraw hacc
    rcases raw with _ | ⟨g0, _ | ⟨g1, _ | ⟨e0, _ | ⟨e1, _ | ⟨l0, _ | ⟨l1, _ | ⟨l2, _ | ⟨l3, rest⟩⟩⟩⟩⟩⟩⟩⟩
    · rw [decodeLoop_nil]
      exact hacc
    · rw [decodeLoop_no_header _ _ (by simp)]
      exact hacc
    · rw [decodeLoop_no_header _ _ (by simp)]
      exact hacc
    · rw [decodeLoop_no_header _ _ (by simp)]
      exact hacc
    · rw [decodeLoop_no_header _ _ (by simp)]
      exact hacc
    · rw [decodeLoop_no_header _ _ (by simp)]
      exact hacc
    · rw [decodeLoop_no_header _ _ (by simp)]
      exact hacc
    · rw [decodeLoop_no_header _ _ (by simp)]
      exact hacc
    · rw [decodeLoop]
      by_cases hl : rest.length < l0 + 256 * l1 + 65536 * l2 + 16777216 * l3
      · rw [if_pos hl]
        exact hacc
      · rw [if_neg hl]
        apply ih
        · have : rest.length ≤ n - 7 ∨ True := Or.inr trivial
          simp only [List.length_drop]
          simp [List.length_cons] at hlen
          omega
        · intro b hb
          exact hraw b (by
            have hbr : b ∈ rest := List.mem_of_mem_drop hb
            simp [hbr])
        · apply insertTag_bounded
          · intro b hb
            exact hraw b (by
              have hbr : b ∈ rest := List.mem_of_mem_take hb
              simp [hbr])
          · exact hacc

theorem commandMap_bounded (raw : List Nat) (hraw : ∀ b ∈ raw, b < 256) :
    CommandMapU16Bounded (DecodeDIMSECommandMap raw) := by
  rw [DecodeDIMSECommandMap]
  exact decodeLoop_bounded raw.length raw (le_refl _) CommandMap.empty hraw
    (by constructor <;> intro v hv <;> simp [CommandMap.empty] at hv)

end NetDicom
namespace NetDicom

theorem readMessage_synthesized (mid pr : Nat) (hmid : mid < 65536) (hpr : pr < 65536) :
    ReadMessage [ { tag := tagCommandField, value := some (DicomValue.ints [48]) },
      { tag := tagMessageID, value := some (DicomValue.ints [Int.ofNat mid]) },
      { tag := tagCommandDataSetType, value := some (DicomValue.ints [Int.ofNat pr]) } ] =
    Except.ok (Message.cEchoRq { messageID := mid, commandDataSetType := pr, extra := [] }) := by
  have hcmid : ¬ ((Int.ofNat mid) < 0 ∨ (Int.ofNat mid) > 65535) := by
    rintro (h | h)
    · exact absurd h (not_lt.mpr (Int.natCast_nonneg mid))
    · have h2 : (65535 : Int) < (mid : Int) := h
      have h3 : 65535 < mid := by exact_mod_cast h2
      omega
  have hcpr : ¬ ((Int.ofNat pr) < 0 ∨ (Int.ofNat pr) > 65535) := by
    rintro (h | h)
    · exact absurd h (not_lt.mpr (Int.natCast_nonneg pr))
    · have h2 : (65535 : Int) < (pr : Int) := h
      have h3 : 65535 < pr := by exact_mod_cast h2
      omega
  have htmid : (Int.ofNat mid).toNat = mid := rfl
  have htpr : (Int.ofNat pr).toNat = pr := rfl
  have h48 : (48 : Int).toNat = 48 := by decide
  have hm1 : ¬ ((↑mid : Int) < 0) := not_lt.mpr (Int.natCast_nonneg mid)
  have hm2 : ¬ (65535 < mid) := not_lt.mpr (Nat.lt_succ_iff.mp hmid)
  have hp1 : ¬ ((↑pr : Int) < 0) := not_lt.mpr (Int.natCast_nonneg pr)
  have hp2 : ¬ (65535 < pr) := not_lt.mpr (Nat.lt_succ_iff.mp hpr)
  simp only [ReadMessage, List.foldl, MessageDecoder.insert, MessageDecoder.erase,
    MessageDecoder.find, tagCommandField, tagMessageID, tagCommandDataSetType,
    MessageDecoder.GetUInt16, MessageDecoder.GetCommandDataSetType,
    MessageDecoder.GetStatus, MessageDecoder.Decode, MessageDecoder.UnparsedElements,
    CEchoRq.decode, bindGet, List.filter, List.find?]
  norm_num [hcmid, hcpr, htmid, htpr, h48, hm1, hm2, hp1, hp2]
  rfl

end NetDicom
namespace NetDicom

theorem decodeCommandBytes_small (ep : List Nat → Except String (List DicomElement))
    (raw : List Nat) (hlen : raw.length < 100) :
    decodeCommandBytes ep raw =
      match (DecodeDIMSECommandMap raw).commandField with
      | some cf =>
        if cf = 48 then
          .ok [ { tag := tagCommandField, value := some (.ints [48]) },
                { tag := tagMessageID,
                  value := some (.ints [Int.ofNat ((DecodeDIMSECommandMap raw).messageID.getD 1)]) },
                { tag := tagCommandDataSetType,
                  value := some (.ints [Int.ofNat ((DecodeDIMSECommandMap raw).priority.getD 257)]) } ]
        else .ok []
      | none => .ok [] := by
  rw [decodeCommandBytes, if_pos hlen]

/-- C3, amended: the external full parser is consulted only for command
buffers of 100 bytes or more; every buffer under 100 bytes takes the
minimal-interpretation path regardless of whether it is parseable, and that
path produces a typed message exactly when the ad-hoc TLV scan finds
CommandField 48 (C-ECHO-RQ), in which case the synthesized three-element
command decodes as a C-ECHO-RQ; under any other command field the decode
step fails. -/
theorem small_buffer_fallback (ep ep1 : List Nat → Except String (List DicomElement))
    (raw : List Nat) (hlen : raw.length < 100) (hbytes : ∀ b ∈ raw, b < 256) :
    decodeCommandStep ep raw = decodeCommandStep ep1 raw ∧
    ((∃ m, decodeCommandStep ep raw = .ok m) ↔
      (DecodeDIMSECommandMap raw).commandField = some 48) := by
  obtain ⟨hb1, hb2⟩ := commandMap_bounded raw hbytes
  constructor
  · rw [decodeCommandStep, decodeCommandStep,
      decodeCommandBytes_small ep raw hlen, decodeCommandBytes_small ep1 raw hlen]
  · cases hcf : (DecodeDIMSECommandMap raw).commandField with
    | none =>
      have hstep : decodeCommandStep ep raw =
          .error "ReadMessage: failed to get command field: GetUInt16: tag not found" := by
        rw [decodeCommandStep, decodeCommandBytes_small ep raw hlen, hcf]
        rfl
      constructor
      · rintro ⟨m, hm⟩
        rw [hstep] at hm
        exact absurd hm (by simp)
      · intro h
        exact absurd h (by simp)
    | some cf =>
      by_cases h48 : cf = 48
      · subst h48
        have hmid : (DecodeDIMSECommandMap raw).messageID.getD 1 < 65536 := by
          cases hm : (DecodeDIMSECommandMap raw).messageID with
          | none => simp
          | some v =>
            have := hb1 v hm
            simpa using this
        have hpr : (DecodeDIMSECommandMap raw).priority.getD 257 < 65536 := by
          cases hm : (DecodeDIMSECommandMap raw).priority with
          | none => simp
          | some v =>
            have := hb2 v hm
            simpa using this
        have hstep : decodeCommandStep ep raw =
            .ok (Message.cEchoRq
              { messageID := (DecodeDIMSECommandMap raw).messageID.getD 1,
                commandDataSetType := (DecodeDIMSECommandMap raw).priority.getD 257,
                extra := [] }) := by
          rw [decodeCommandStep, decodeCommandBytes_small ep raw hlen, hcf]
          simp only [if_pos rfl]
          exact readMessage_synthesized _ _ hmid hpr
        constructor
        · intro _
          rfl
        · intro _
          exact ⟨_, hstep⟩
      · have hstep : decodeCommandStep ep raw =
            .error "ReadMessage: failed to get command field: GetUInt16: tag not found" := by
          rw [decodeCommandStep, decodeCommandBytes_small ep raw hlen, hcf]
          simp only [if_neg h48]
          rfl
        constructor
        · rintro ⟨m, hm⟩
          rw [hstep] at hm
          exact absurd hm (by simp)
        · intro h
          exact absurd ((Option.some.injEq _ _).mp h) h48

end NetDicom
namespace NetDicom

theorem decodeMap_cEchoRsp :
    DecodeDIMSECommandMap cEchoRspWireBytes =
      { sopClassUID := none, commandField := some 32816, messageID := none,
        messageIDBeingRespondedTo := some 1, dataSetType := none, priority := some 257,
        unknown := [((0, 0), [40, 0, 0, 0]), ((0, 2304), [0, 0])] } := by
  rw [DecodeDIMSECommandMap, cEchoRspWireBytes]
  simp [decodeLoop, CommandMap.insertTag, le16, CommandMap.empty, decodeLoop_nil]
  decide

/-- C3 counterexample: a fully consistent implicit-VR little-endian C-ECHO-RSP
command set of 52 bytes (command group length, CommandField 0x8030,
MessageIDBeingRespondedTo, CommandDataSetType, Status) is under the 100-byte
threshold, so the assembler takes the minimal-interpretation path even though
the buffer is parseable, and AddDataPDU fails instead of returning the typed
message. -/
theorem small_consistent_command_decode_fails :
    CommandAssembler.AddDataPDU externalParseUnused CommandAssembler.empty
      (PDataTf.mk [PresentationDataValueItem.mk 1 true true cEchoRspWireBytes]) =
      Except.error (AddDataPDUError.decodeFailure
        "ReadMessage: failed to get command field: GetUInt16: tag not found") ∧
    cEchoRspWireBytes.length < 100 := by
  refine ⟨?_, by decide⟩
  have hA : itemsLoop CommandAssembler.empty
      [PresentationDataValueItem.mk 1 true true cEchoRspWireBytes] =
      .ok { contextID := 1, commandBytes := cEchoRspWireBytes, command := none,
            dataBytes := [], readAllCommand := true, readAllData := false } := by
    rw [cEchoRspWireBytes]
    decide
  have hdec : decodeCommandIfNeeded externalParseUnused
      { contextID := 1, commandBytes := cEchoRspWireBytes, command := none,
        dataBytes := [], readAllCommand := true, readAllData := false } =
      .error "ReadMessage: failed to get command field: GetUInt16: tag not found" := by
    rw [decodeCommandIfNeeded]
    simp only []
    rw [decodeCommandStep, decodeCommandBytes, if_pos (by decide), decodeMap_cEchoRsp]
    decide
  rw [CommandAssembler.AddDataPDU.eq_def]
  simp only []
  rw [hA]
  simp [hdec]

/-- Witness for C3 (amended) on the concrete 10-byte minimal C-ECHO-RQ
buffer, whose TLV scan finds CommandField 48, so the decode step succeeds. -/
theorem small_buffer_fallback_witness :
    ∃ m, decodeCommandStep externalParseUnused cEchoRqMinimalBytes = .ok m :=
  (small_buffer_fallback externalParseUnused externalParseUnused cEchoRqMinimalBytes
    (by decide) (by decide)).2.mpr
    (by rw [decodeMap_minimal])

end NetDicom
namespace NetDicom

/-- Witness for C7 (amended): a single non-last command PDV leaves the
command channel incomplete, so AddDataPDU answers the updated state with no
message and no error. -/
theorem addDataPDU_completion_rule_witness :
    CommandAssembler.AddDataPDU externalParseUnused CommandAssembler.empty
      (PDataTf.mk [PresentationDataValueItem.mk 5 true false [1]]) =
      Except.ok ({ contextID := 5, commandBytes := [1], command := none, dataBytes := [],
                   readAllCommand := false, readAllData := false }, none) :=
  (addDataPDU_completion_rule externalParseUnused CommandAssembler.empty
    { contextID := 5, commandBytes := [1], command := none, dataBytes := [],
      readAllCommand := false, readAllData := false }
    (PDataTf.mk [PresentationDataValueItem.mk 5 true false [1]]) (by decide)).1 rfl

end NetDicom
